import Mathlib

/-!
Verification development for the Starneto Newton-M2 GNSS/INS binary-stream
parser (`modules/drivers/gnss/parser/newtonm2_parser.cc`).

The parser is embedded shallowly: every member function of `NewtonM2Parser`
becomes a Lean function over an explicit parser-state record, doubles become
rationals, machine integers become `Nat` with explicit `% 2^w` masks at the
points where the C++ types truncate, and the repository code that is only
declared outside the translated file (wire-format constants, struct layouts,
the CRC routine, the IMU parameter table, the RTKLIB observation sub-decoder)
is carried as an explicit environment of external functions, modelled from the
specification of their interface.
-/

namespace NewtonM2

/-- Message type tags returned by the parser (`Parser::MessageType`). -/
inductive MessageType where
  | NONE
  | BEST_GNSS_POS
  | GNSS
  | INS
  | IMU
  | INS_STAT
  | BDSEPHEMERIDES
  | GPSEPHEMERIDES
  | GLOEPHEMERIDES
  | OBSERVATION
  | HEADING
  deriving DecidableEq, Repr

/-- Fused-solution quality classes of the output record (`apollo::drivers::gnss::Gnss`). -/
inductive GnssPosType where
  | SINGLE
  | PSRDIFF
  | RTK_FLOAT
  | RTK_INTEGER
  | PPP
  | PROPAGATED
  | INVALID
  deriving DecidableEq, Repr

/-- INS quality classes of the output record (`apollo::drivers::gnss::Ins`). -/
inductive InsType where
  | GOOD
  | CONVERGING
  | INVALID
  deriving DecidableEq, Repr

/-- Constellation tags of the output taxonomy (`apollo::drivers::gnss::GnssType`). -/
inductive GnssType where
  | GPS_SYS
  | BDS_SYS
  | GLO_SYS
  deriving DecidableEq, Repr

/-- Time-system tags of the output taxonomy (`apollo::drivers::gnss::GnssTimeType`). -/
inductive GnssTimeType where
  | GPS_TIME
  | BDS_TIME
  | GLO_TIME
  deriving DecidableEq, Repr

/-- Pseudo-range code classes of the output taxonomy (`apollo::drivers::gnss::PseudoType`). -/
inductive PseudoType where
  | CORSE_CODE
  | PRECISION_CODE
  deriving DecidableEq, Repr

/-- Modelled from the spec: the fixed 3-byte sync sequence of the wire format
("2 fixed bytes + 1 variant discriminator byte"); the numeric values live in
`newtonm2_messages.h`, which is not part of the translated file. -/
def SYNC_0 : Nat := 0xAA

/-- Modelled from the spec: second fixed sync byte. -/
def SYNC_1 : Nat := 0x44

/-- Modelled from the spec: long-header variant discriminator byte. -/
def SYNC_2_LONG_HEADER : Nat := 0x12

/-- Modelled from the spec: short-header variant discriminator byte. -/
def SYNC_2_SHORT_HEADER : Nat := 0x13

/-- Modelled from the spec: byte size of the fixed-layout long header
(`sizeof(newtonm2::LongHeader)`); the layout lives outside the translated file. -/
def LONG_HEADER_SIZE : Nat := 28

/-- Modelled from the spec: byte size of the fixed-layout short header
(`sizeof(newtonm2::ShortHeader)`). -/
def SHORT_HEADER_SIZE : Nat := 12

/-- Modelled from the spec: the frame ends with a 4-byte checksum
(`newtonm2::CRC_LENGTH`). -/
def CRC_LENGTH : Nat := 4

/-- Seconds in one GPS week, used by every time conversion in the source. -/
def SECONDS_PER_WEEK : Nat := 604800

/- Modelled from the spec: numeric values of the `newtonm2::MessageId`
identifiers consumed by the dispatcher; the enum itself lives in
`newtonm2_messages.h`.  The dispatch logic only needs them to be fixed
numerals. -/
namespace MessageId

def BESTGNSSPOS : Nat := 1429
def BESTPOS : Nat := 42
def PSRPOS : Nat := 47
def BESTGNSSVEL : Nat := 1430
def BESTVEL : Nat := 99
def PSRVEL : Nat := 100
def CORRIMUDATA : Nat := 812
def CORRIMUDATAS : Nat := 813
def INSCOV : Nat := 264
def INSCOVS : Nat := 320
def INSPVA : Nat := 507
def INSPVAS : Nat := 508
def RAWIMUX : Nat := 1461
def RAWIMUSX : Nat := 1462
def RAWIMU : Nat := 268
def RAWIMUS : Nat := 325
def INSPVAX : Nat := 1465
def BDSEPHEMERIS : Nat := 1696
def GPSEPHEMERIS : Nat := 7
def GLOEPHEMERIS : Nat := 723
def RANGE : Nat := 43
def HEADING : Nat := 971

end MessageId

/- Modelled from the spec: numeric codes of `newtonm2::SolutionStatus`,
`newtonm2::SolutionType`, `newtonm2::DatumId` and `newtonm2::InsStatus` used by
the classification switches; the enums live in `newtonm2_messages.h`. -/
namespace SolutionStatus

def SOL_COMPUTED : Nat := 0

end SolutionStatus

namespace SolutionType

def FLOATCONV : Nat := 4
def WIDELANE : Nat := 5
def NARROWLANE : Nat := 6
def SINGLE : Nat := 16
def PSRDIFF : Nat := 17
def WAAS : Nat := 18
def PROPOGATED : Nat := 19
def OMNISTAR : Nat := 20
def L1_FLOAT : Nat := 32
def IONOFREE_FLOAT : Nat := 33
def NARROW_FLOAT : Nat := 34
def L1_INT : Nat := 48
def WIDE_INT : Nat := 49
def NARROW_INT : Nat := 50
def RTK_DIRECT_INS : Nat := 51
def INS_SBAS : Nat := 52
def INS_PSRSP : Nat := 53
def INS_RTKFLOAT : Nat := 55
def INS_RTKFIXED : Nat := 56
def INS_OMNISTAR : Nat := 57
def INS_OMNISTAR_HP : Nat := 58
def INS_OMNISTAR_XP : Nat := 59
def OMNISTAR_HP : Nat := 64
def OMNISTAR_XP : Nat := 65
def PPP_CONVERGING : Nat := 68
def PPP : Nat := 69
def INS_PPP_CONVERGING : Nat := 73
def INS_PPP : Nat := 74

end SolutionType

namespace DatumId

def WGS84 : Nat := 61

end DatumId

namespace InsStatus

def ALIGNING : Nat := 1
def HIGH_VARIANCE : Nat := 2
def SOLUTION_GOOD : Nat := 3
def SOLUTION_FREE : Nat := 6
def ALIGNMENT_COMPLETE : Nat := 7

end InsStatus

/-- Modelled from the spec: RTKLIB code identifiers used by the observation
handler (`CODE_L1C`, `CODE_L1P`); the sub-decoder is an external collaborator. -/
def CODE_L1C : Nat := 1

/-- Modelled from the spec: RTKLIB precision-code identifier. -/
def CODE_L1P : Nat := 2

/-- Fields every wire header exposes (`message_id`, `message_length`,
`gps_week`, `gps_millisecs`), as read from either header layout. -/
structure HeaderView where
  message_id : Nat
  message_length : Nat
  gps_week : Nat
  gps_millisecs : Nat

/-- Truncates extracted header fields to the widths of the C++ header struct
members: `MessageId`/`message_length`/`gps_week` are 16-bit, `gps_millisecs`
is 32-bit. -/
def maskHeader (h : HeaderView) : HeaderView :=
  { message_id := h.message_id % 65536
    message_length := h.message_length % 65536
    gps_week := h.gps_week % 65536
    gps_millisecs := h.gps_millisecs % 4294967296 }

/-- Body of the `BestPos` wire message, with the fields the handlers read. -/
structure BestPos where
  solution_status : Nat
  position_type : Nat
  latitude : ℚ
  longitude : ℚ
  height_msl : ℚ
  undulation : ℚ
  datum_id : Nat
  latitude_std_dev : ℚ
  longitude_std_dev : ℚ
  height_std_dev : ℚ
  base_station_id : Nat
  differential_age : ℚ
  solution_age : ℚ
  num_sats_tracked : Nat
  num_sats_in_solution : Nat
  num_sats_l1 : Nat
  num_sats_multi : Nat
  extended_solution_status : Nat
  galileo_beidou_used_mask : Nat
  gps_glonass_used_mask : Nat

/-- Body of the `BestVel` wire message. -/
structure BestVel where
  velocity_type : Nat
  latency : ℚ
  track_over_ground : ℚ
  horizontal_speed : ℚ
  vertical_speed : ℚ

/-- Body of the `CorrImuData` wire message. -/
structure CorrImuData where
  gps_week : Nat
  gps_seconds : ℚ
  x_velocity_change : ℚ
  y_velocity_change : ℚ
  z_velocity_change : ℚ
  x_angle_change : ℚ
  y_angle_change : ℚ
  z_angle_change : ℚ

/-- Body of the `InsCov` wire message: three 3x3 covariance arrays. -/
structure InsCov where
  position_covariance : List ℚ
  attitude_covariance : List ℚ
  velocity_covariance : List ℚ

/-- Body of the `InsPva` wire message. -/
structure InsPva where
  gps_week : Nat
  gps_seconds : ℚ
  latitude : ℚ
  longitude : ℚ
  height : ℚ
  east_velocity : ℚ
  north_velocity : ℚ
  up_velocity : ℚ
  roll : ℚ
  pitch : ℚ
  azimuth : ℚ
  status : Nat

/-- Body of the `InsPvaX` wire message, with the fields the handler reads. -/
structure InsPvaX where
  ins_status : Nat
  pos_type : Nat

/-- Body of the `RawImuX` wire message. -/
structure RawImuX where
  imu_error : Nat
  imuStatus : Nat
  gps_week : Nat
  gps_seconds : ℚ
  x_velocity_change : ℚ
  y_velocity_change_neg : ℚ
  z_velocity_change : ℚ
  x_angle_change : ℚ
  y_angle_change_neg : ℚ
  z_angle_change : ℚ

/-- Body of the `RawImu` wire message. -/
structure RawImu where
  gps_week : Nat
  gps_seconds : ℚ
  x_velocity_change : ℚ
  y_velocity_change_neg : ℚ
  z_velocity_change : ℚ
  x_angle_change : ℚ
  y_angle_change_neg : ℚ
  z_angle_change : ℚ

/-- Body of the `GPS_Ephemeris` wire message. -/
structure GPS_Ephemeris where
  prn : Nat
  week : Nat
  af0 : ℚ
  af1 : ℚ
  af2 : ℚ
  iode1 : Nat
  delta_A : ℚ
  M_0 : ℚ
  ecc : ℚ
  A : ℚ
  toe : ℚ
  toc : ℚ
  cic : ℚ
  crc : ℚ
  cis : ℚ
  crs : ℚ
  cuc : ℚ
  cus : ℚ
  omega_0 : ℚ
  omega : ℚ
  I_0 : ℚ
  dot_omega : ℚ
  dot_I : ℚ
  ura : ℚ
  health : Nat
  tgd : ℚ
  iodc : Nat

/-- Body of the `BDS_Ephemeris` wire message. -/
structure BDS_Ephemeris where
  satellite_id : Nat
  week : Nat
  a0 : ℚ
  a1 : ℚ
  a2 : ℚ
  aode : Nat
  delta_N : ℚ
  M0 : ℚ
  ecc : ℚ
  rootA : ℚ
  toe : ℚ
  toc : ℚ
  cic : ℚ
  crc : ℚ
  cis : ℚ
  crs : ℚ
  cuc : ℚ
  cus : ℚ
  omega0 : ℚ
  omega : ℚ
  inc_angle : ℚ
  rra : ℚ
  idot : ℚ
  ura : ℚ
  health1 : Nat
  tdg1 : ℚ
  aodc : Nat

/-- Body of the `GLO_Ephemeris` wire message. -/
structure GLO_Ephemeris where
  sloto : Int
  e_time : Nat
  freqo : Int
  e_week : Nat
  Tk : ℚ
  tau_n : ℚ
  gamma : ℚ
  health : Nat
  pos_x : ℚ
  pos_y : ℚ
  pos_z : ℚ
  vel_x : ℚ
  vel_y : ℚ
  vel_z : ℚ
  acc_x : ℚ
  acc_y : ℚ
  acc_z : ℚ
  age : ℚ

/-- Body of the `Heading` wire message. -/
structure HeadingMsg where
  solution_status : Nat
  position_type : Nat
  length : ℚ
  heading : ℚ
  pitch : ℚ
  reserved : ℚ
  heading_std_dev : ℚ
  pitch_std_dev : ℚ
  station_id : Nat
  num_sats_tracked : Nat
  num_sats_in_solution : Nat
  num_sats_ele : Nat
  num_sats_l2 : Nat
  solution_source : Nat
  extended_solution_status : Nat
  galileo_beidou_sig_mask : Nat
  gps_glonass_sig_mask : Nat

/-- Modelled from the spec: per-device calibration entry of the fixed parameter
table (`newtonm2::ImuParameter`): gyro scale, accelerometer scale and sampling
rate, as used by the raw-inertial handlers. -/
structure ImuParameter where
  gyro_scale : ℚ
  accel_scale : ℚ
  sampling_rate_hz : ℚ

/-- Modelled from the spec: one tracked satellite of the external sub-decoder's
observation buffer (`raw_.obs.data[i]`): satellite number plus per-band
carrier-phase `L`, pseudo-range `P`, Doppler `D`, signal-to-noise `SNR` and
code-type arrays. -/
structure ObsDatum where
  sat : Nat
  L : List ℚ
  P : List ℚ
  D : List ℚ
  SNR : List ℚ
  code : List Nat

/-- Modelled from the spec: the external sub-decoder's state (`raw_t`), at the
granularity this parser reads it: a receiver time and the decoded observation
list (`raw_.time`, `raw_.obs.n`, `raw_.obs.data`). -/
structure RawT where
  time : ℚ
  obs : List ObsDatum

/-- Modelled from the spec: the external interface of everything the translated
file uses but does not define — the CRC routine `crc32_block`, the two header
layouts (as field extractors over the accumulated buffer), the per-message
body layouts (as body decoders), the protocol-fixed body sizes, the IMU
parameter table `GetImuParameter`, the covariance reordering array `INDEX`,
the time/trigonometric helpers, the wall clock, and the RTKLIB observation
sub-decoder (`init_raw`/`input_oem4`/`time2gpst`/`satsys`) together with the
output-taxonomy maps `gnss_sys_type`/`gnss_baud_id`. -/
structure Env where
  crc32_block : List Nat → Nat
  longHeaderFields : List Nat → HeaderView
  shortHeaderFields : List Nat → HeaderView
  decodeBestPos : List Nat → BestPos
  decodeBestVel : List Nat → BestVel
  decodeCorrImuData : List Nat → CorrImuData
  decodeInsCov : List Nat → InsCov
  decodeInsPva : List Nat → InsPva
  decodeInsPvaX : List Nat → InsPvaX
  decodeRawImuX : List Nat → RawImuX
  decodeRawImu : List Nat → RawImu
  decodeGpsEph : List Nat → GPS_Ephemeris
  decodeBdsEph : List Nat → BDS_Ephemeris
  decodeGloEph : List Nat → GLO_Ephemeris
  decodeHeading : List Nat → HeadingMsg
  sizeofBestPos : Nat
  sizeofBestVel : Nat
  sizeofCorrImuData : Nat
  sizeofInsCov : Nat
  sizeofInsPva : Nat
  sizeofInsPvaX : Nat
  sizeofRawImuX : Nat
  sizeofRawImu : Nat
  sizeofGpsEph : Nat
  sizeofBdsEph : Nat
  sizeofGloEph : Nat
  sizeofHeading : Nat
  GetImuParameter : Nat → ImuParameter
  index9 : Nat → Nat
  deg_to_rad : ℚ
  float_nan : ℚ
  sqrtQ : ℚ → ℚ
  cosQ : ℚ → ℚ
  sinQ : ℚ → ℚ
  azimuth_deg_to_yaw_rad : ℚ → ℚ
  gps2unix : ℚ → ℚ
  now : ℚ
  input_oem4 : RawT → Nat → RawT × Int
  time2gpst : ℚ → Nat × ℚ
  satsys : Nat → Int × Nat
  gnss_sys_type : Int → Option GnssType
  gnss_baud_id : GnssType → Nat → Option Nat
  NFREQ_NEXOBS : Nat
  initial_imu_type : Nat
  initial_imu_frame_mapping : Nat
  initial_raw : RawT

/-- Modelled from the spec: `is_zero` of `parser.h` — the unset test on
calibration scales and on carrier-phase entries. -/
def is_zero (q : ℚ) : Bool := q = 0

/-- Three-component vector record used for positions, velocities, standard
deviations, accelerations and Euler angles of the output messages. -/
structure V3 where
  x : ℚ
  y : ℚ
  z : ℚ

/-- Geodetic point of the output messages (`lon`, `lat`, `height`). -/
structure LLH where
  lon : ℚ
  lat : ℚ
  height : ℚ

/-- Modelled from the spec: `rfu_to_flu` of `parser.h` — the fixed axis
permutation from the receiver's Right-Forward-Up convention to the output
Forward-Left-Up convention. -/
def rfu_to_flu (x y z : ℚ) : V3 :=
  { x := y, y := -x, z := z }

/-- Output record `bestpos_` (`apollo::drivers::gnss::GnssBestPose`). -/
structure GnssBestPose where
  sol_status : Nat
  sol_type : Nat
  latitude : ℚ
  longitude : ℚ
  height_msl : ℚ
  undulation : ℚ
  datum_id : Nat
  latitude_std_dev : ℚ
  longitude_std_dev : ℚ
  height_std_dev : ℚ
  base_station_id : Nat
  differential_age : ℚ
  solution_age : ℚ
  num_sats_tracked : Nat
  num_sats_in_solution : Nat
  num_sats_l1 : Nat
  num_sats_multi : Nat
  extended_solution_status : Nat
  galileo_beidou_used_mask : Nat
  gps_glonass_used_mask : Nat
  measurement_time : ℚ

/-- Output record `gnss_` (`apollo::drivers::gnss::Gnss`), the fused GNSS
record jointly populated by the position and velocity handlers. -/
structure Gnss where
  position : LLH
  position_std_dev : V3
  num_sats : Nat
  solution_status : Nat
  position_type : Nat
  type : GnssPosType
  velocity_latency : Option ℚ
  linear_velocity : V3
  measurement_time : ℚ

/-- Output record `ins_` (`apollo::drivers::gnss::Ins`). -/
structure Ins where
  position_covariance : List ℚ
  euler_angles_covariance : List ℚ
  linear_velocity_covariance : List ℚ
  position : LLH
  euler_angles : V3
  linear_velocity : V3
  linear_acceleration : V3
  angular_velocity : V3
  type : InsType
  measurement_time : ℚ
  header_timestamp_sec : ℚ

/-- Output record `imu_` (`apollo::drivers::gnss::Imu`). -/
structure Imu where
  measurement_span : ℚ
  measurement_time : ℚ
  linear_acceleration : V3
  angular_velocity : V3

/-- Output record `ins_stat_` (`apollo::drivers::gnss::InsStat`). -/
structure InsStat where
  header_timestamp_sec : ℚ
  ins_status : Nat
  pos_type : Nat

/-- Keppler-orbit block of the ephemeris output record. -/
structure KepplerOrbit where
  gnss_type : GnssType
  gnss_time_type : GnssTimeType
  sat_prn : Nat
  week_num : Nat
  af0 : ℚ
  af1 : ℚ
  af2 : ℚ
  iode : Nat
  deltan : ℚ
  m0 : ℚ
  e : ℚ
  roota : ℚ
  toe : ℚ
  toc : ℚ
  cic : ℚ
  crc : ℚ
  cis : ℚ
  crs : ℚ
  cuc : ℚ
  cus : ℚ
  omega0 : ℚ
  omega : ℚ
  i0 : ℚ
  omegadot : ℚ
  idot : ℚ
  accuracy : ℚ
  health : Nat
  tgd : ℚ
  iodc : Nat

/-- Glonass-orbit block of the ephemeris output record. -/
structure GlonassOrbit where
  gnss_type : GnssType
  gnss_time_type : GnssTimeType
  slot_prn : Int
  toe : Nat
  frequency_no : Int
  week_num : Nat
  week_second_s : Nat
  tk : ℚ
  clock_offset : ℚ
  clock_drift : ℚ
  health : Nat
  position_x : ℚ
  position_y : ℚ
  position_z : ℚ
  velocity_x : ℚ
  velocity_y : ℚ
  velocity_z : ℚ
  accelerate_x : ℚ
  accelerate_y : ℚ
  accelerate_z : ℚ
  infor_age : ℚ

/-- Output record `gnss_ephemeris_` (`apollo::drivers::gnss::GnssEphemeris`). -/
structure GnssEphemeris where
  gnss_type : GnssType
  keppler_orbit : KepplerOrbit
  glonass_orbit : GlonassOrbit

/-- Output record `heading_` (`apollo::drivers::gnss::Heading`). -/
structure HeadingRecord where
  solution_status : Nat
  position_type : Nat
  baseline_length : ℚ
  heading : ℚ
  pitch : ℚ
  reserved : ℚ
  heading_std_dev : ℚ
  pitch_std_dev : ℚ
  station_id : Nat
  satellite_tracked_number : Nat
  satellite_soulution_number : Nat
  satellite_number_obs : Nat
  satellite_number_multi : Nat
  solution_source : Nat
  extended_solution_status : Nat
  galileo_beidou_sig_mask : Nat
  gps_glonass_sig_mask : Nat
  measurement_time : ℚ

/-- One band sub-record of a satellite observation (`band_obs`). -/
structure BandObs where
  pseudo_type : Option PseudoType
  band_id : Nat
  pseudo_range : ℚ
  carrier_phase : ℚ
  loss_lock_index : ℚ
  doppler : ℚ
  snr : ℚ

/-- One satellite of the observation output record (`sat_obs`). -/
structure SatObs where
  sat_prn : Nat
  sat_sys : GnssType
  band_obs_num : Nat
  band_obs : List BandObs

/-- Output record `gnss_observation_`
(`apollo::drivers::gnss::EpochObservation`). -/
structure EpochObservation where
  receiver_id : Nat
  gnss_time_type : GnssTimeType
  gnss_week : Nat
  gnss_second_s : ℚ
  sat_obs_num : Nat
  sat_obs : List SatObs

/-- Parser state: the private members of `NewtonM2Parser` — frame-accumulation
state, calibration state, scalar status caches and the long-lived output
records. -/
structure PState where
  buffer_ : List Nat
  header_length_ : Nat
  total_length_ : Nat
  imu_type_ : Nat
  solution_status_ : Nat
  position_type_ : Nat
  velocity_type_ : Nat
  ins_status_ : Nat
  gyro_scale_ : ℚ
  accel_scale_ : ℚ
  imu_measurement_hz_ : ℚ
  imu_measurement_span_ : ℚ
  imu_measurement_time_previous_ : ℚ
  imu_frame_mapping_ : Nat
  bestpos_ : GnssBestPose
  gnss_ : Gnss
  ins_ : Ins
  imu_ : Imu
  ins_stat_ : InsStat
  gnss_ephemeris_ : GnssEphemeris
  heading_ : HeadingRecord
  gnss_observation_ : EpochObservation
  raw_ : RawT

/-- GPS week + millisecond-of-week to continuous seconds, as computed at every
`gps_week * SECONDS_PER_WEEK + gps_millisecs * 1e-3` site of the source. -/
def gpsSeconds (gps_week gps_millisecs : Nat) : ℚ :=
  (gps_week : ℚ) * (SECONDS_PER_WEEK : ℚ) + (gps_millisecs : ℚ) * (1 / 1000)

/-- GPS week + fractional second-of-week to continuous seconds, as computed at
every `gps_week * SECONDS_PER_WEEK + gps_seconds` site of the source. -/
def gpsSecondsF (gps_week : Nat) (gps_seconds : ℚ) : ℚ :=
  (gps_week : ℚ) * (SECONDS_PER_WEEK : ℚ) + gps_seconds

/-- Solution-type classification switch of `HandleBestPos`, collapsing the raw
position-type codes into the output quality classes. -/
def gnssTypeOfSolutionType (pt : Nat) : GnssPosType :=
  if pt = SolutionType.SINGLE ∨ pt = SolutionType.INS_PSRSP then
    .SINGLE
  else if pt = SolutionType.PSRDIFF ∨ pt = SolutionType.WAAS ∨
      pt = SolutionType.INS_SBAS then
    .PSRDIFF
  else if pt = SolutionType.FLOATCONV ∨ pt = SolutionType.L1_FLOAT ∨
      pt = SolutionType.IONOFREE_FLOAT ∨ pt = SolutionType.NARROW_FLOAT ∨
      pt = SolutionType.RTK_DIRECT_INS ∨ pt = SolutionType.INS_RTKFLOAT then
    .RTK_FLOAT
  else if pt = SolutionType.WIDELANE ∨ pt = SolutionType.NARROWLANE ∨
      pt = SolutionType.L1_INT ∨ pt = SolutionType.WIDE_INT ∨
      pt = SolutionType.NARROW_INT ∨ pt = SolutionType.INS_RTKFIXED then
    .RTK_INTEGER
  else if pt = SolutionType.OMNISTAR ∨ pt = SolutionType.INS_OMNISTAR ∨
      pt = SolutionType.INS_OMNISTAR_HP ∨ pt = SolutionType.INS_OMNISTAR_XP ∨
      pt = SolutionType.OMNISTAR_HP ∨ pt = SolutionType.OMNISTAR_XP ∨
      pt = SolutionType.PPP_CONVERGING ∨ pt = SolutionType.PPP ∨
      pt = SolutionType.INS_PPP_CONVERGING ∨ pt = SolutionType.INS_PPP then
    .PPP
  else if pt = SolutionType.PROPOGATED then
    .PROPAGATED
  else
    .INVALID

/-- INS-status classification switch of `HandleInsPva`. -/
def insTypeOfStatus (st : Nat) : InsType :=
  if st = InsStatus.ALIGNMENT_COMPLETE ∨ st = InsStatus.SOLUTION_GOOD then
    .GOOD
  else if st = InsStatus.ALIGNING ∨ st = InsStatus.HIGH_VARIANCE ∨
      st = InsStatus.SOLUTION_FREE then
    .CONVERGING
  else
    .INVALID

/-- Handler `NewtonM2Parser::HandleGnssBestpos`: copies every `BestPos` field
into the `bestpos_` record, stamps the frame time, and always reports ready. -/
def HandleGnssBestpos (pos : BestPos) (gps_week gps_millisecs : Nat)
    (s : PState) : PState × Bool :=
  let b := { s.bestpos_ with
    sol_status := pos.solution_status
    sol_type := pos.position_type
    latitude := pos.latitude
    longitude := pos.longitude
    height_msl := pos.height_msl
    undulation := pos.undulation
    datum_id := pos.datum_id
    latitude_std_dev := pos.latitude_std_dev
    longitude_std_dev := pos.longitude_std_dev
    height_std_dev := pos.height_std_dev
    base_station_id := pos.base_station_id
    differential_age := pos.differential_age
    solution_age := pos.solution_age
    num_sats_tracked := pos.num_sats_tracked
    num_sats_in_solution := pos.num_sats_in_solution
    num_sats_l1 := pos.num_sats_l1
    num_sats_multi := pos.num_sats_multi
    extended_solution_status := pos.extended_solution_status
    galileo_beidou_used_mask := pos.galileo_beidou_used_mask
    gps_glonass_used_mask := pos.gps_glonass_used_mask
    measurement_time := gpsSeconds gps_week gps_millisecs }
  ({ s with bestpos_ := b }, true)

/-- Handler `NewtonM2Parser::HandleBestPos`: populates the fused `gnss_`
record (position, standard deviations, satellite count, quality class) and
applies the timestamp readiness gate. -/
def HandleBestPos (pos : BestPos) (gps_week gps_millisecs : Nat)
    (s : PState) : PState × Bool :=
  let g1 := { s.gnss_ with
    position := { lon := pos.longitude, lat := pos.latitude,
                  height := pos.height_msl + pos.undulation }
    position_std_dev := { x := pos.longitude_std_dev, y := pos.latitude_std_dev,
                          z := pos.height_std_dev }
    num_sats := pos.num_sats_in_solution }
  -- Status-change tracking (the source also logs on change).
  let s1 := if s.solution_status_ ≠ pos.solution_status then
      { s with solution_status_ := pos.solution_status } else s
  let s2 := if s1.position_type_ ≠ pos.position_type then
      { s1 with position_type_ := pos.position_type } else s1
  let g2 := { g1 with solution_status := pos.solution_status }
  let g3 :=
    if pos.solution_status = SolutionStatus.SOL_COMPUTED then
      { g2 with position_type := pos.position_type,
                type := gnssTypeOfSolutionType pos.position_type }
    else
      { g2 with type := .INVALID, position_type := 0 }
  -- Unexpected datum id is log-only.
  let seconds := gpsSeconds gps_week gps_millisecs
  if g3.measurement_time ≠ seconds then
    ({ s2 with gnss_ := { g3 with measurement_time := seconds } }, false)
  else
    ({ s2 with gnss_ := g3 }, true)

/-- Handler `NewtonM2Parser::HandleBestVel`: populates the fused `gnss_`
record's velocity fields and applies the timestamp readiness gate. -/
def HandleBestVel (env : Env) (vel : BestVel) (gps_week gps_millisecs : Nat)
    (s : PState) : PState × Bool :=
  let s1 := if s.velocity_type_ ≠ vel.velocity_type then
      { s with velocity_type_ := vel.velocity_type } else s
  let g1 := if s1.gnss_.velocity_latency ≠ some vel.latency then
      { s1.gnss_ with velocity_latency := some vel.latency } else s1.gnss_
  let yaw := env.azimuth_deg_to_yaw_rad vel.track_over_ground
  let g2 := { g1 with linear_velocity :=
    { x := vel.horizontal_speed * env.cosQ yaw,
      y := vel.horizontal_speed * env.sinQ yaw,
      z := vel.vertical_speed } }
  let seconds := gpsSeconds gps_week gps_millisecs
  if g2.measurement_time ≠ seconds then
    ({ s1 with gnss_ := { g2 with measurement_time := seconds } }, false)
  else
    ({ s1 with gnss_ := g2 }, true)

/-- Handler `NewtonM2Parser::HandleCorrImuData`: scales the velocity/angle
changes by the calibrated sample rate into the `ins_` record and applies the
timestamp readiness gate. -/
def HandleCorrImuData (env : Env) (imu : CorrImuData) (s : PState) :
    PState × Bool :=
  let i1 := { s.ins_ with
    linear_acceleration := rfu_to_flu (imu.x_velocity_change * s.imu_measurement_hz_)
      (imu.y_velocity_change * s.imu_measurement_hz_)
      (imu.z_velocity_change * s.imu_measurement_hz_)
    angular_velocity := rfu_to_flu (imu.x_angle_change * s.imu_measurement_hz_)
      (imu.y_angle_change * s.imu_measurement_hz_)
      (imu.z_angle_change * s.imu_measurement_hz_) }
  let seconds := gpsSecondsF imu.gps_week imu.gps_seconds
  if i1.measurement_time ≠ seconds then
    ({ s with ins_ := { i1 with measurement_time := seconds } }, false)
  else
    ({ s with ins_ := { i1 with header_timestamp_sec := env.now } }, true)

/-- Handler `NewtonM2Parser::HandleInsCov`: writes the three 3x3 covariance
arrays into the `ins_` record (attitude entries reordered through `INDEX` and
converted to radians squared) and always reports not ready. -/
def HandleInsCov (env : Env) (cov : InsCov) (s : PState) : PState × Bool :=
  let step := fun (ins : Ins) (i : Nat) =>
    { ins with
      position_covariance :=
        ins.position_covariance.set i (cov.position_covariance.getD i 0)
      euler_angles_covariance :=
        ins.euler_angles_covariance.set (env.index9 i)
          ((env.deg_to_rad * env.deg_to_rad) * cov.attitude_covariance.getD i 0)
      linear_velocity_covariance :=
        ins.linear_velocity_covariance.set i (cov.velocity_covariance.getD i 0) }
  ({ s with ins_ := (List.range 9).foldl step s.ins_ }, false)

/-- Handler `NewtonM2Parser::HandleInsPva`: populates the `ins_` record's
position, attitude, velocity and quality class, and applies the timestamp
readiness gate. -/
def HandleInsPva (env : Env) (pva : InsPva) (s : PState) : PState × Bool :=
  let s1 := if s.ins_status_ ≠ pva.status then
      { s with ins_status_ := pva.status } else s
  let i1 := { s1.ins_ with
    position := { lon := pva.longitude, lat := pva.latitude, height := pva.height }
    euler_angles := { x := pva.roll * env.deg_to_rad,
                      y := -pva.pitch * env.deg_to_rad,
                      z := env.azimuth_deg_to_yaw_rad pva.azimuth }
    linear_velocity := { x := pva.east_velocity, y := pva.north_velocity,
                         z := pva.up_velocity }
    type := insTypeOfStatus pva.status }
  let seconds := gpsSecondsF pva.gps_week pva.gps_seconds
  if i1.measurement_time ≠ seconds then
    ({ s1 with ins_ := { i1 with measurement_time := seconds } }, false)
  else
    ({ s1 with ins_ := { i1 with header_timestamp_sec := env.now } }, true)

/-- Handler `NewtonM2Parser::HandleInsPvax`: stamps the navigation-status
record `ins_stat_` with the unix-converted frame time and the status/type
codes, and always reports ready. -/
def HandleInsPvax (env : Env) (pvax : InsPvaX) (gps_week gps_millisecs : Nat)
    (s : PState) : PState × Bool :=
  let seconds := gpsSeconds gps_week gps_millisecs
  let unix_sec := env.gps2unix seconds
  ({ s with ins_stat_ := { header_timestamp_sec := unix_sec,
                           ins_status := pvax.ins_status,
                           pos_type := pvax.pos_type } }, true)

/-- Axis-mapping and timestamp tail of `HandleRawImuX` (everything after the
calibration block): stamps the measurement time, applies the frame-mapping
switch — an unsupported selector only logs — records the previous-sample
time, and reports ready. -/
def rawImuXBody (imu : RawImuX) (s : PState) : PState × Bool :=
  let time := gpsSecondsF imu.gps_week imu.gps_seconds
  -- The sample-interval continuity check is log-only.
  let m0 := { s.imu_ with measurement_time := time }
  let m1 :=
    if s.imu_frame_mapping_ = 5 then
      { m0 with
        linear_acceleration := rfu_to_flu (imu.x_velocity_change * s.accel_scale_)
          (-imu.y_velocity_change_neg * s.accel_scale_)
          (imu.z_velocity_change * s.accel_scale_)
        angular_velocity := rfu_to_flu (imu.x_angle_change * s.gyro_scale_)
          (-imu.y_angle_change_neg * s.gyro_scale_)
          (imu.z_angle_change * s.gyro_scale_) }
    else if s.imu_frame_mapping_ = 6 then
      { m0 with
        linear_acceleration := rfu_to_flu (-imu.y_velocity_change_neg * s.accel_scale_)
          (imu.x_velocity_change * s.accel_scale_)
          (-imu.z_velocity_change * s.accel_scale_)
        angular_velocity := rfu_to_flu (-imu.y_angle_change_neg * s.gyro_scale_)
          (imu.x_angle_change * s.gyro_scale_)
          (-imu.z_angle_change * s.gyro_scale_) }
    else
      m0  -- unsupported mapping: rate-limited error log only
  ({ s with imu_ := m1, imu_measurement_time_previous_ := time }, true)

/-- Handler `NewtonM2Parser::HandleRawImuX`: lazily initializes the persistent
calibration members from the per-device parameter table (dropping the frame if
the configured device's sampling rate is zero), then decodes the sample. -/
def HandleRawImuX (env : Env) (imu : RawImuX) (s : PState) : PState × Bool :=
  -- A nonzero imu_error is warn-only.
  if is_zero s.gyro_scale_ then
    let param := env.GetImuParameter s.imu_type_
    if is_zero param.sampling_rate_hz then
      (s, false)
    else
      rawImuXBody imu { s with
        gyro_scale_ := param.gyro_scale * param.sampling_rate_hz
        accel_scale_ := param.accel_scale * param.sampling_rate_hz
        imu_measurement_hz_ := param.sampling_rate_hz
        imu_measurement_span_ := 1 / param.sampling_rate_hz
        imu_ := { s.imu_ with measurement_span := 1 / param.sampling_rate_hz } }
  else
    rawImuXBody imu s

/-- Axis-mapping and timestamp tail of `HandleRawImu`, parameterized by the
locally computed scales this variant uses instead of the members. -/
def rawImuBody (imu : RawImu) (gyro_scale accel_scale : ℚ) (s : PState) :
    PState × Bool :=
  let time := gpsSecondsF imu.gps_week imu.gps_seconds
  let m0 := { s.imu_ with measurement_time := time }
  let m1 :=
    if s.imu_frame_mapping_ = 5 then
      { m0 with
        linear_acceleration := rfu_to_flu (imu.x_velocity_change * accel_scale)
          (-imu.y_velocity_change_neg * accel_scale)
          (imu.z_velocity_change * accel_scale)
        angular_velocity := rfu_to_flu (imu.x_angle_change * gyro_scale)
          (-imu.y_angle_change_neg * gyro_scale)
          (imu.z_angle_change * gyro_scale) }
    else if s.imu_frame_mapping_ = 6 then
      { m0 with
        linear_acceleration := rfu_to_flu (-imu.y_velocity_change_neg * accel_scale)
          (imu.x_velocity_change * accel_scale)
          (-imu.z_velocity_change * accel_scale)
        angular_velocity := rfu_to_flu (-imu.y_angle_change_neg * gyro_scale)
          (imu.x_angle_change * gyro_scale)
          (-imu.z_angle_change * gyro_scale) }
    else
      m0  -- unsupported mapping: rate-limited error log only
  ({ s with imu_ := m1, imu_measurement_time_previous_ := time }, true)

/-- Handler `NewtonM2Parser::HandleRawImu`: derives the scales into locals (it
never writes the persistent calibration members), dropping the frame if
calibration is unset and the configured device's sampling rate is zero. -/
def HandleRawImu (env : Env) (imu : RawImu) (s : PState) : PState × Bool :=
  if is_zero s.gyro_scale_ then
    let param := env.GetImuParameter s.imu_type_
    if is_zero param.sampling_rate_hz then
      (s, false)
    else
      rawImuBody imu (param.gyro_scale * param.sampling_rate_hz)
        (param.accel_scale * param.sampling_rate_hz)
        { s with imu_ := { s.imu_ with measurement_span := 1 / param.sampling_rate_hz } }
  else
    rawImuBody imu s.gyro_scale_ s.accel_scale_
      { s with imu_ := { s.imu_ with measurement_span := s.imu_measurement_span_ } }


/-- Handler `NewtonM2Parser::HandleGpsEph`: fills the Keppler-orbit block of
the ephemeris record from a GPS ephemeris body and always reports ready. -/
def HandleGpsEph (env : Env) (gps_emph : GPS_Ephemeris) (s : PState) :
    PState × Bool :=
  let k := { s.gnss_ephemeris_.keppler_orbit with
    gnss_type := GnssType.GPS_SYS
    gnss_time_type := GnssTimeType.GPS_TIME
    sat_prn := gps_emph.prn
    week_num := gps_emph.week
    af0 := gps_emph.af0
    af1 := gps_emph.af1
    af2 := gps_emph.af2
    iode := gps_emph.iode1
    deltan := gps_emph.delta_A
    m0 := gps_emph.M_0
    e := gps_emph.ecc
    roota := env.sqrtQ gps_emph.A
    toe := gps_emph.toe
    toc := gps_emph.toc
    cic := gps_emph.cic
    crc := gps_emph.crc
    cis := gps_emph.cis
    crs := gps_emph.crs
    cuc := gps_emph.cuc
    cus := gps_emph.cus
    omega0 := gps_emph.omega_0
    omega := gps_emph.omega
    i0 := gps_emph.I_0
    omegadot := gps_emph.dot_omega
    idot := gps_emph.dot_I
    accuracy := env.sqrtQ gps_emph.ura
    health := gps_emph.health
    tgd := gps_emph.tgd
    iodc := gps_emph.iodc }
  ({ s with gnss_ephemeris_ := { s.gnss_ephemeris_ with
      gnss_type := GnssType.GPS_SYS, keppler_orbit := k } }, true)

/-- Handler `NewtonM2Parser::HandleBdsEph`: fills the Keppler-orbit block of
the ephemeris record from a BeiDou ephemeris body and always reports ready. -/
def HandleBdsEph (bds_emph : BDS_Ephemeris) (s : PState) : PState × Bool :=
  let k := { s.gnss_ephemeris_.keppler_orbit with
    gnss_type := GnssType.BDS_SYS
    gnss_time_type := GnssTimeType.BDS_TIME
    sat_prn := bds_emph.satellite_id
    week_num := bds_emph.week
    af0 := bds_emph.a0
    af1 := bds_emph.a1
    af2 := bds_emph.a2
    iode := bds_emph.aode
    deltan := bds_emph.delta_N
    m0 := bds_emph.M0
    e := bds_emph.ecc
    roota := bds_emph.rootA
    toe := bds_emph.toe
    toc := bds_emph.toc
    cic := bds_emph.cic
    crc := bds_emph.crc
    cis := bds_emph.cis
    crs := bds_emph.crs
    cuc := bds_emph.cuc
    cus := bds_emph.cus
    omega0 := bds_emph.omega0
    omega := bds_emph.omega
    i0 := bds_emph.inc_angle
    omegadot := bds_emph.rra
    idot := bds_emph.idot
    accuracy := bds_emph.ura
    health := bds_emph.health1
    tgd := bds_emph.tdg1
    iodc := bds_emph.aodc }
  ({ s with gnss_ephemeris_ := { s.gnss_ephemeris_ with
      gnss_type := GnssType.BDS_SYS, keppler_orbit := k } }, true)

/-- Handler `NewtonM2Parser::HandleGloEph`: fills the Glonass-orbit block of
the ephemeris record from a GLONASS ephemeris body and always reports ready. -/
def HandleGloEph (glo_emph : GLO_Ephemeris) (s : PState) : PState × Bool :=
  let g := { s.gnss_ephemeris_.glonass_orbit with
    gnss_type := GnssType.GLO_SYS
    gnss_time_type := GnssTimeType.GLO_TIME
    slot_prn := glo_emph.sloto - 37
    toe := glo_emph.e_time / 1000
    frequency_no := glo_emph.freqo - 7
    week_num := glo_emph.e_week
    week_second_s := glo_emph.e_time / 1000
    tk := glo_emph.Tk
    clock_offset := -glo_emph.tau_n
    clock_drift := glo_emph.gamma
    health := if glo_emph.health ≤ 3 then 0 else 1
    position_x := glo_emph.pos_x
    position_y := glo_emph.pos_y
    position_z := glo_emph.pos_z
    velocity_x := glo_emph.vel_x
    velocity_y := glo_emph.vel_y
    velocity_z := glo_emph.vel_z
    accelerate_x := glo_emph.acc_x
    accelerate_y := glo_emph.acc_y
    accelerate_z := glo_emph.acc_z
    infor_age := glo_emph.age }
  ({ s with gnss_ephemeris_ := { s.gnss_ephemeris_ with
      gnss_type := GnssType.GLO_SYS, glonass_orbit := g } }, true)

/-- Handler `NewtonM2Parser::HandleHeading`: copies every heading field into
the `heading_` record, stamps the frame time, and always reports ready. -/
def HandleHeading (heading : HeadingMsg) (gps_week gps_millisecs : Nat)
    (s : PState) : PState × Bool :=
  let h := { s.heading_ with
    solution_status := heading.solution_status
    position_type := heading.position_type
    baseline_length := heading.length
    heading := heading.heading
    pitch := heading.pitch
    reserved := heading.reserved
    heading_std_dev := heading.heading_std_dev
    pitch_std_dev := heading.pitch_std_dev
    station_id := heading.station_id
    satellite_tracked_number := heading.num_sats_tracked
    satellite_soulution_number := heading.num_sats_in_solution
    satellite_number_obs := heading.num_sats_ele
    satellite_number_multi := heading.num_sats_l2
    solution_source := heading.solution_source
    extended_solution_status := heading.extended_solution_status
    galileo_beidou_sig_mask := heading.galileo_beidou_sig_mask
    gps_glonass_sig_mask := heading.gps_glonass_sig_mask
    measurement_time := gpsSeconds gps_week gps_millisecs }
  ({ s with heading_ := h }, true)

/-- Method `NewtonM2Parser::SetObservationTime`: converts the sub-decoder's
receiver time to a GPS week/second pair on the observation record. -/
def SetObservationTime (env : Env) (raw : RawT) (o : EpochObservation) :
    EpochObservation :=
  let ws := env.time2gpst raw.time
  { o with gnss_time_type := GnssTimeType.GPS_TIME
           gnss_week := ws.1
           gnss_second_s := ws.2 }

/-- One band sub-record, as assembled in the inner loop of
`DecodeGnssObservation`.  The pseudo-type classification indexes the
per-band `code` array with the satellite index `i` exactly as the source
does; an unrecognized code value leaves the field at its default (the
source only logs there). -/
def mkBandObs (d : ObsDatum) (i j bid : Nat) : BandObs :=
  let c := d.code.getD i 0
  { pseudo_type := if c = CODE_L1C then some PseudoType.CORSE_CODE
                   else if c = CODE_L1P then some PseudoType.PRECISION_CODE
                   else none
    band_id := bid
    pseudo_range := d.P.getD j 0
    carrier_phase := d.L.getD j 0
    loss_lock_index := d.SNR.getD j 0
    doppler := d.D.getD j 0
    -- snr is assigned twice in the source, with the same value
    snr := d.SNR.getD j 0 }

/-- Inner band loop of `DecodeGnssObservation`: runs `j` from 0 up to
`NFREQ + NEXOBS`, stopping at the first zero carrier phase or unmapped band;
returns the accumulated band list together with the final value of `j` (which
the source stores as `band_obs_num`). -/
def bandLoop (env : Env) (d : ObsDatum) (i : Nat) (gt : GnssType) :
    Nat → Nat → List BandObs × Nat
  | 0, j => ([], j)
  | fuel + 1, j =>
    if is_zero (d.L.getD j 0) then ([], j)
    else
      match env.gnss_baud_id gt j with
      | none => ([], j)
      | some bid =>
        let rest := bandLoop env d i gt fuel (j + 1)
        (mkBandObs d i j bid :: rest.1, rest.2)

/-- Outer satellite loop of `DecodeGnssObservation`: walks the decoded
satellites in order; a satellite whose system is not recognized by
`gnss_sys_type` executes `break`, ending the whole loop. -/
def buildSats (env : Env) : List ObsDatum → Nat → List SatObs
  | [], _ => []
  | d :: rest, i =>
    let sp := env.satsys d.sat
    match env.gnss_sys_type sp.1 with
    | none => []
    | some gt =>
      let bl := bandLoop env d i gt env.NFREQ_NEXOBS 0
      { sat_prn := sp.2, sat_sys := gt, band_obs_num := bl.2,
        band_obs := bl.1 } :: buildSats env rest (i + 1)

/-- Observation-record assembly of `DecodeGnssObservation`'s
complete-epoch branch: clear the record, stamp receiver id and time, store
the satellite count reported by the sub-decoder, and run the satellite loop. -/
def buildObservation (env : Env) (raw : RawT) : EpochObservation :=
  let o0 : EpochObservation :=
    { receiver_id := 0, gnss_time_type := GnssTimeType.GPS_TIME,
      gnss_week := 0, gnss_second_s := 0, sat_obs_num := 0, sat_obs := [] }
  let o1 := SetObservationTime env raw o0
  { o1 with sat_obs_num := raw.obs.length, sat_obs := buildSats env raw.obs 0 }

/-- Handler `NewtonM2Parser::DecodeGnssObservation`: feeds the payload bytes
one at a time to the external sub-decoder and, on its complete-epoch status,
rebuilds the observation record and reports ready. -/
def DecodeGnssObservation (env : Env) (s : PState) :
    List Nat → PState × Bool
  | [] => (s, false)
  | b :: rest =>
    let r := env.input_oem4 s.raw_ b
    let s1 := { s with raw_ := r.1 }
    if r.2 = 1 then
      ({ s1 with gnss_observation_ := buildObservation env r.1 }, true)
    else
      DecodeGnssObservation env s1 rest


/-- Reads the trailing checksum word exactly as the C++ does via
`*reinterpret_cast<uint32_t*>`: a native little-endian 32-bit load (the
wire's intended byte order is a documented open question of the spec). -/
def readU32LE (l : List Nat) : Nat :=
  l.getD 0 0 % 256 + 256 * (l.getD 1 0 % 256) + 65536 * (l.getD 2 0 % 256) +
    16777216 * (l.getD 3 0 % 256)

/-- Method `NewtonM2Parser::check_crc`: computes the 32-bit checksum over all
buffer bytes except the trailing `CRC_LENGTH` suffix and compares it with the
suffix word. -/
def check_crc (env : Env) (s : PState) : Bool :=
  let l := s.buffer_.length - CRC_LENGTH
  env.crc32_block (s.buffer_.take l) = readU32LE (s.buffer_.drop l)

/-- Header interpretation step of `PrepareMessage`: the variant is chosen by
the third buffer byte; returns the (width-masked) header fields and the
header size, whose offset locates the body. -/
def headerOf (env : Env) (buf : List Nat) : HeaderView × Nat :=
  if buf.getD 2 0 = SYNC_2_LONG_HEADER then
    (maskHeader (env.longHeaderFields buf), LONG_HEADER_SIZE)
  else
    (maskHeader (env.shortHeaderFields buf), SHORT_HEADER_SIZE)

/-- Method `NewtonM2Parser::PrepareMessage`: validates the checksum before
reading any header field, then dispatches on the message identifier after
checking the declared body length against the protocol-fixed size for that
identifier; a handler that reports not-ready, a length mismatch, a failed
checksum and an unknown identifier all yield `NONE`. -/
def PrepareMessage (env : Env) (s : PState) : PState × MessageType :=
  if ¬ check_crc env s then
    (s, MessageType.NONE)
  else
    let hdr := headerOf env s.buffer_
    let h := hdr.1
    let body := s.buffer_.drop hdr.2
    if h.message_id = MessageId.BESTGNSSPOS then
      if h.message_length ≠ env.sizeofBestPos then (s, MessageType.NONE)
      else
        let r := HandleGnssBestpos (env.decodeBestPos body) h.gps_week h.gps_millisecs s
        if r.2 then (r.1, MessageType.BEST_GNSS_POS) else (r.1, MessageType.NONE)
    else if h.message_id = MessageId.BESTPOS ∨ h.message_id = MessageId.PSRPOS then
      if h.message_length ≠ env.sizeofBestPos then (s, MessageType.NONE)
      else
        let r := HandleBestPos (env.decodeBestPos body) h.gps_week h.gps_millisecs s
        if r.2 then (r.1, MessageType.GNSS) else (r.1, MessageType.NONE)
    else if h.message_id = MessageId.BESTGNSSVEL ∨ h.message_id = MessageId.BESTVEL ∨
        h.message_id = MessageId.PSRVEL then
      if h.message_length ≠ env.sizeofBestVel then (s, MessageType.NONE)
      else
        let r := HandleBestVel env (env.decodeBestVel body) h.gps_week h.gps_millisecs s
        if r.2 then (r.1, MessageType.GNSS) else (r.1, MessageType.NONE)
    else if h.message_id = MessageId.CORRIMUDATA ∨ h.message_id = MessageId.CORRIMUDATAS then
      if h.message_length ≠ env.sizeofCorrImuData then (s, MessageType.NONE)
      else
        let r := HandleCorrImuData env (env.decodeCorrImuData body) s
        if r.2 then (r.1, MessageType.INS) else (r.1, MessageType.NONE)
    else if h.message_id = MessageId.INSCOV ∨ h.message_id = MessageId.INSCOVS then
      if h.message_length ≠ env.sizeofInsCov then (s, MessageType.NONE)
      else
        let r := HandleInsCov env (env.decodeInsCov body) s
        if r.2 then (r.1, MessageType.INS) else (r.1, MessageType.NONE)
    else if h.message_id = MessageId.INSPVA ∨ h.message_id = MessageId.INSPVAS then
      if h.message_length ≠ env.sizeofInsPva then (s, MessageType.NONE)
      else
        let r := HandleInsPva env (env.decodeInsPva body) s
        if r.2 then (r.1, MessageType.INS) else (r.1, MessageType.NONE)
    else if h.message_id = MessageId.RAWIMUX ∨ h.message_id = MessageId.RAWIMUSX then
      if h.message_length ≠ env.sizeofRawImuX then (s, MessageType.NONE)
      else
        let r := HandleRawImuX env (env.decodeRawImuX body) s
        if r.2 then (r.1, MessageType.IMU) else (r.1, MessageType.NONE)
    else if h.message_id = MessageId.RAWIMU ∨ h.message_id = MessageId.RAWIMUS then
      if h.message_length ≠ env.sizeofRawImu then (s, MessageType.NONE)
      else
        let r := HandleRawImu env (env.decodeRawImu body) s
        if r.2 then (r.1, MessageType.IMU) else (r.1, MessageType.NONE)
    else if h.message_id = MessageId.INSPVAX then
      if h.message_length ≠ env.sizeofInsPvaX then (s, MessageType.NONE)
      else
        let r := HandleInsPvax env (env.decodeInsPvaX body) h.gps_week h.gps_millisecs s
        if r.2 then (r.1, MessageType.INS_STAT) else (r.1, MessageType.NONE)
    else if h.message_id = MessageId.BDSEPHEMERIS then
      if h.message_length ≠ env.sizeofBdsEph then (s, MessageType.NONE)
      else
        let r := HandleBdsEph (env.decodeBdsEph body) s
        if r.2 then (r.1, MessageType.BDSEPHEMERIDES) else (r.1, MessageType.NONE)
    else if h.message_id = MessageId.GPSEPHEMERIS then
      if h.message_length ≠ env.sizeofGpsEph then (s, MessageType.NONE)
      else
        let r := HandleGpsEph env (env.decodeGpsEph body) s
        if r.2 then (r.1, MessageType.GPSEPHEMERIDES) else (r.1, MessageType.NONE)
    else if h.message_id = MessageId.GLOEPHEMERIS then
      if h.message_length ≠ env.sizeofGloEph then (s, MessageType.NONE)
      else
        let r := HandleGloEph (env.decodeGloEph body) s
        if r.2 then (r.1, MessageType.GLOEPHEMERIDES) else (r.1, MessageType.NONE)
    else if h.message_id = MessageId.RANGE then
      -- the observation family has variable length: the whole buffer goes to
      -- the sub-decoder, with no size check
      let r := DecodeGnssObservation env s s.buffer_
      if r.2 then (r.1, MessageType.OBSERVATION) else (r.1, MessageType.NONE)
    else if h.message_id = MessageId.HEADING then
      if h.message_length ≠ env.sizeofHeading then (s, MessageType.NONE)
      else
        let r := HandleHeading (env.decodeHeading body) h.gps_week h.gps_millisecs s
        if r.2 then (r.1, MessageType.HEADING) else (r.1, MessageType.NONE)
    else
      (s, MessageType.NONE)

/-- Byte-free transitions of the `GetMessage` loop, taken at the top of an
iteration before any byte is consumed: completing a header computes
`total_length_` (clearing the buffer on an impossible header size), and a
complete frame is validated, dispatched and cleared regardless of outcome.
With at most two buffer bytes, or with header or body bytes still missing,
nothing happens and the next byte is consumed. -/
def settle (env : Env) (s : PState) : PState × MessageType :=
  if s.buffer_.length ≤ 2 then
    (s, MessageType.NONE)
  else if 0 < s.header_length_ then
    if s.buffer_.length < s.header_length_ then (s, MessageType.NONE)
    else if s.header_length_ = LONG_HEADER_SIZE then
      ({ s with
          total_length_ := s.header_length_ + CRC_LENGTH +
            (maskHeader (env.longHeaderFields s.buffer_)).message_length
          header_length_ := 0 }, MessageType.NONE)
    else if s.header_length_ = SHORT_HEADER_SIZE then
      ({ s with
          total_length_ := s.header_length_ + CRC_LENGTH +
            (maskHeader (env.shortHeaderFields s.buffer_)).message_length
          header_length_ := 0 }, MessageType.NONE)
    else
      -- "Incorrect header_length_. Should never reach here."
      ({ s with buffer_ := [], header_length_ := 0 }, MessageType.NONE)
  else if 0 < s.total_length_ then
    if s.buffer_.length < s.total_length_ then (s, MessageType.NONE)
    else
      let r := PrepareMessage env s
      ({ r.1 with buffer_ := [], total_length_ := 0 }, r.2)
  else
    (s, MessageType.NONE)

/-- Byte-consuming transitions of the `GetMessage` loop: sync search, header
accumulation and body accumulation.  A sync mismatch clears the buffer and the
same byte is immediately re-examined as a `SYNC_0` candidate, exactly as the
source's non-advancing `else` branches do on the next iteration. -/
def handleByte (s : PState) (b : Nat) : PState :=
  if s.buffer_.length = 0 then
    if b = SYNC_0 then { s with buffer_ := s.buffer_ ++ [b] } else s
  else if s.buffer_.length = 1 then
    if b = SYNC_1 then { s with buffer_ := s.buffer_ ++ [b] }
    else if b = SYNC_0 then { s with buffer_ := [b] }
    else { s with buffer_ := [] }
  else if s.buffer_.length = 2 then
    if b = SYNC_2_LONG_HEADER then
      { s with buffer_ := s.buffer_ ++ [b], header_length_ := LONG_HEADER_SIZE }
    else if b = SYNC_2_SHORT_HEADER then
      { s with buffer_ := s.buffer_ ++ [b], header_length_ := SHORT_HEADER_SIZE }
    else if b = SYNC_0 then { s with buffer_ := [b] }
    else { s with buffer_ := [] }
  else if 0 < s.header_length_ then
    if s.buffer_.length < s.header_length_ then { s with buffer_ := s.buffer_ ++ [b] }
    else s  -- resolved by settle before this point
  else if 0 < s.total_length_ then
    if s.buffer_.length < s.total_length_ then { s with buffer_ := s.buffer_ ++ [b] }
    else s  -- resolved by settle before this point
  else
    s  -- unreachable: three or more bytes with no header or body pending

/-- Method `NewtonM2Parser::GetMessage`, driven over an explicit input range:
alternates the byte-free transitions with one-byte consumption until a message
is produced (returned together with the unconsumed remainder, which the next
call resumes on) or the range is exhausted. -/
def GetMessage (env : Env) : PState → List Nat → PState × List Nat × MessageType
  | s, [] => (s, [], MessageType.NONE)
  | s, b :: rest =>
    let st := settle env s
    if st.2 = MessageType.NONE then GetMessage env (handleByte st.1 b) rest
    else (st.1, b :: rest, st.2)

/-- Receiver configuration consumed by the constructor: the optional
device/inertial-unit variant. -/
structure Config where
  imu_type : Option Nat

/-- Constructor `NewtonM2Parser(config)`: empty accumulation state, INS
covariance arrays resized to 9 NaN entries (the NaN marker is carried by the
environment), the configured IMU type when present, and the sub-decoder's
freshly initialized state.  Scalar members keep the in-class defaults
declared in the parser's header, carried by the environment where they are
not forced by the translated file. -/
def initState (env : Env) (config : Config) : PState := {
  buffer_ := []
  header_length_ := 0
  total_length_ := 0
  imu_type_ := config.imu_type.getD env.initial_imu_type
  solution_status_ := 0
  position_type_ := 0
  velocity_type_ := 0
  ins_status_ := 0
  gyro_scale_ := 0
  accel_scale_ := 0
  imu_measurement_hz_ := 0
  imu_measurement_span_ := 1 / 200
  imu_measurement_time_previous_ := -1
  imu_frame_mapping_ := env.initial_imu_frame_mapping
  bestpos_ := {
    sol_status := 0
    sol_type := 0
    latitude := 0
    longitude := 0
    height_msl := 0
    undulation := 0
    datum_id := 0
    latitude_std_dev := 0
    longitude_std_dev := 0
    height_std_dev := 0
    base_station_id := 0
    differential_age := 0
    solution_age := 0
    num_sats_tracked := 0
    num_sats_in_solution := 0
    num_sats_l1 := 0
    num_sats_multi := 0
    extended_solution_status := 0
    galileo_beidou_used_mask := 0
    gps_glonass_used_mask := 0
    measurement_time := 0 }
  gnss_ := {
    position := { lon := 0, lat := 0, height := 0 }
    position_std_dev := { x := 0, y := 0, z := 0 }
    num_sats := 0
    solution_status := 0
    position_type := 0
    type := GnssPosType.INVALID
    velocity_latency := none
    linear_velocity := { x := 0, y := 0, z := 0 }
    measurement_time := 0 }
  ins_ := {
    position_covariance := List.replicate 9 env.float_nan
    euler_angles_covariance := List.replicate 9 env.float_nan
    linear_velocity_covariance := List.replicate 9 env.float_nan
    position := { lon := 0, lat := 0, height := 0 }
    euler_angles := { x := 0, y := 0, z := 0 }
    linear_velocity := { x := 0, y := 0, z := 0 }
    linear_acceleration := { x := 0, y := 0, z := 0 }
    angular_velocity := { x := 0, y := 0, z := 0 }
    type := InsType.INVALID
    measurement_time := 0
    header_timestamp_sec := 0 }
  imu_ := {
    measurement_span := 1 / 200
    measurement_time := 0
    linear_acceleration := { x := 0, y := 0, z := 0 }
    angular_velocity := { x := 0, y := 0, z := 0 } }
  ins_stat_ := { header_timestamp_sec := 0, ins_status := 0, pos_type := 0 }
  gnss_ephemeris_ := {
    gnss_type := GnssType.GPS_SYS
    keppler_orbit := {
      gnss_type := GnssType.GPS_SYS
      gnss_time_type := GnssTimeType.GPS_TIME
      sat_prn := 0
      week_num := 0
      af0 := 0
      af1 := 0
      af2 := 0
      iode := 0
      deltan := 0
      m0 := 0
      e := 0
      roota := 0
      toe := 0
      toc := 0
      cic := 0
      crc := 0
      cis := 0
      crs := 0
      cuc := 0
      cus := 0
      omega0 := 0
      omega := 0
      i0 := 0
      omegadot := 0
      idot := 0
      accuracy := 0
      health := 0
      tgd := 0
      iodc := 0 }
    glonass_orbit := {
      gnss_type := GnssType.GLO_SYS
      gnss_time_type := GnssTimeType.GLO_TIME
      slot_prn := 0
      toe := 0
      frequency_no := 0
      week_num := 0
      week_second_s := 0
      tk := 0
      clock_offset := 0
      clock_drift := 0
      health := 0
      position_x := 0
      position_y := 0
      position_z := 0
      velocity_x := 0
      velocity_y := 0
      velocity_z := 0
      accelerate_x := 0
      accelerate_y := 0
      accelerate_z := 0
      infor_age := 0 } }
  heading_ := {
    solution_status := 0
    position_type := 0
    baseline_length := 0
    heading := 0
    pitch := 0
    reserved := 0
    heading_std_dev := 0
    pitch_std_dev := 0
    station_id := 0
    satellite_tracked_number := 0
    satellite_soulution_number := 0
    satellite_number_obs := 0
    satellite_number_multi := 0
    solution_source := 0
    extended_solution_status := 0
    galileo_beidou_sig_mask := 0
    gps_glonass_sig_mask := 0
    measurement_time := 0 }
  gnss_observation_ := {
    receiver_id := 0
    gnss_time_type := GnssTimeType.GPS_TIME
    gnss_week := 0
    gnss_second_s := 0
    sat_obs_num := 0
    sat_obs := [] }
  raw_ := env.initial_raw }


/-- Identifiers present in the dispatch switch of `PrepareMessage`; every
other identifier falls through to the silent default. -/
def knownMessageIds : List Nat :=
  [MessageId.BESTGNSSPOS, MessageId.BESTPOS, MessageId.PSRPOS,
   MessageId.BESTGNSSVEL, MessageId.BESTVEL, MessageId.PSRVEL,
   MessageId.CORRIMUDATA, MessageId.CORRIMUDATAS,
   MessageId.INSCOV, MessageId.INSCOVS,
   MessageId.INSPVA, MessageId.INSPVAS,
   MessageId.RAWIMUX, MessageId.RAWIMUSX,
   MessageId.RAWIMU, MessageId.RAWIMUS,
   MessageId.INSPVAX, MessageId.BDSEPHEMERIS, MessageId.GPSEPHEMERIS,
   MessageId.GLOEPHEMERIS, MessageId.RANGE, MessageId.HEADING]

/-- Largest possible frame: long header, checksum, and the largest body
length a 16-bit declared length can name. -/
def maxFrameLen : Nat := LONG_HEADER_SIZE + CRC_LENGTH + 65535

/-- Accumulation-state invariant of the framing machine: the header-size
marker is one of the two header sizes or cleared; while a header is pending
the buffer holds the three sync bytes up to the header size and no total is
set; while a body is pending the buffer holds at most `total_length_` bytes,
which never names more than the largest frame; and outside both phases at
most the sync bytes are buffered. -/
def WFState (s : PState) : Prop :=
  (s.header_length_ = 0 ∨ s.header_length_ = SHORT_HEADER_SIZE ∨
    s.header_length_ = LONG_HEADER_SIZE) ∧
  (0 < s.header_length_ →
    3 ≤ s.buffer_.length ∧ s.buffer_.length ≤ s.header_length_ ∧
      s.total_length_ = 0) ∧
  (0 < s.total_length_ →
    s.header_length_ = 0 ∧ 3 ≤ s.buffer_.length ∧
      s.buffer_.length ≤ s.total_length_ ∧ s.total_length_ ≤ maxFrameLen) ∧
  (s.header_length_ = 0 ∧ s.total_length_ = 0 → s.buffer_.length ≤ 2)

/-- Two states agree on the frame-accumulation fields (`buffer_`,
`header_length_`, `total_length_`), which no decode handler touches. -/
def accumEq (s t : PState) : Prop :=
  t.buffer_ = s.buffer_ ∧ t.header_length_ = s.header_length_ ∧
    t.total_length_ = s.total_length_

/-- BestPos body with all fields zero, the base of the concrete frames used
in the closed evaluation theorems. -/
def bestPos0 : BestPos :=
  { solution_status := 0, position_type := 0, latitude := 0, longitude := 0,
    height_msl := 0, undulation := 0, datum_id := 0, latitude_std_dev := 0,
    longitude_std_dev := 0, height_std_dev := 0, base_station_id := 0,
    differential_age := 0, solution_age := 0, num_sats_tracked := 0,
    num_sats_in_solution := 0, num_sats_l1 := 0, num_sats_multi := 0,
    extended_solution_status := 0, galileo_beidou_used_mask := 0,
    gps_glonass_used_mask := 0 }

/-- The concrete BESTPOS body of the spec's end-to-end scenario:
`SOL_COMPUTED`/`SINGLE`, latitude 37.4, longitude -122.1, height 10 above the
geoid with undulation -25. -/
def bestPosScenario : BestPos :=
  { bestPos0 with
    solution_status := SolutionStatus.SOL_COMPUTED
    position_type := SolutionType.SINGLE
    latitude := 187 / 5
    longitude := -1221 / 10
    height_msl := 10
    undulation := -25 }

/-- BestVel body with all fields zero. -/
def bestVel0 : BestVel :=
  { velocity_type := 0, latency := 0, track_over_ground := 0,
    horizontal_speed := 0, vertical_speed := 0 }

/-- InsCov body with empty arrays (entries read as zero). -/
def insCov0 : InsCov :=
  { position_covariance := [], attitude_covariance := [],
    velocity_covariance := [] }

/-- InsPvaX body with all fields zero. -/
def insPvaX0 : InsPvaX := { ins_status := 0, pos_type := 0 }

/-- RawImuX body with all fields zero. -/
def rawImuX0 : RawImuX :=
  { imu_error := 0, imuStatus := 0, gps_week := 0, gps_seconds := 0,
    x_velocity_change := 0, y_velocity_change_neg := 0, z_velocity_change := 0,
    x_angle_change := 0, y_angle_change_neg := 0, z_angle_change := 0 }

/-- RawImu body with all fields zero. -/
def rawImu0 : RawImu :=
  { gps_week := 0, gps_seconds := 0, x_velocity_change := 0,
    y_velocity_change_neg := 0, z_velocity_change := 0, x_angle_change := 0,
    y_angle_change_neg := 0, z_angle_change := 0 }

/-- GPS ephemeris body with all fields zero. -/
def gpsEph0 : GPS_Ephemeris :=
  { prn := 0, week := 0, af0 := 0, af1 := 0, af2 := 0, iode1 := 0,
    delta_A := 0, M_0 := 0, ecc := 0, A := 0, toe := 0, toc := 0, cic := 0,
    crc := 0, cis := 0, crs := 0, cuc := 0, cus := 0, omega_0 := 0,
    omega := 0, I_0 := 0, dot_omega := 0, dot_I := 0, ura := 0, health := 0,
    tgd := 0, iodc := 0 }

/-- BeiDou ephemeris body with all fields zero. -/
def bdsEph0 : BDS_Ephemeris :=
  { satellite_id := 0, week := 0, a0 := 0, a1 := 0, a2 := 0, aode := 0,
    delta_N := 0, M0 := 0, ecc := 0, rootA := 0, toe := 0, toc := 0,
    cic := 0, crc := 0, cis := 0, crs := 0, cuc := 0, cus := 0, omega0 := 0,
    omega := 0, inc_angle := 0, rra := 0, idot := 0, ura := 0, health1 := 0,
    tdg1 := 0, aodc := 0 }

/-- GLONASS ephemeris body with all fields zero. -/
def gloEph0 : GLO_Ephemeris :=
  { sloto := 0, e_time := 0, freqo := 0, e_week := 0, Tk := 0, tau_n := 0,
    gamma := 0, health := 0, pos_x := 0, pos_y := 0, pos_z := 0, vel_x := 0,
    vel_y := 0, vel_z := 0, acc_x := 0, acc_y := 0, acc_z := 0, age := 0 }

/-- Heading body with all fields zero. -/
def headingMsg0 : HeadingMsg :=
  { solution_status := 0, position_type := 0, length := 0, heading := 0,
    pitch := 0, reserved := 0, heading_std_dev := 0, pitch_std_dev := 0,
    station_id := 0, num_sats_tracked := 0, num_sats_in_solution := 0,
    num_sats_ele := 0, num_sats_l2 := 0, solution_source := 0,
    extended_solution_status := 0, galileo_beidou_sig_mask := 0,
    gps_glonass_sig_mask := 0 }

/-- CorrImuData body with all fields zero. -/
def corrImuData0 : CorrImuData :=
  { gps_week := 0, gps_seconds := 0, x_velocity_change := 0,
    y_velocity_change := 0, z_velocity_change := 0, x_angle_change := 0,
    y_angle_change := 0, z_angle_change := 0 }

/-- InsPva body with all fields zero. -/
def insPva0 : InsPva :=
  { gps_week := 0, gps_seconds := 0, latitude := 0, longitude := 0,
    height := 0, east_velocity := 0, north_velocity := 0, up_velocity := 0,
    roll := 0, pitch := 0, azimuth := 0, status := 0 }

/-- Concrete instantiation of the external environment used by the closed
evaluation theorems: a trivial checksum (always 0, so a zero suffix word
validates and a nonzero one does not), simple byte-offset header extractors,
constant body decoders, a two-entry IMU parameter table (type 1 supported at
100 Hz, every other unsupported with a zero rate), a one-satellite system
table, and a sub-decoder that reports a complete epoch on input byte 1. -/
def testEnv : Env :=
  { crc32_block := fun _ => 0
    longHeaderFields := fun buf =>
      { message_id := buf.getD 4 0 + 256 * buf.getD 5 0
        message_length := buf.getD 6 0 + 256 * buf.getD 7 0
        gps_week := buf.getD 8 0
        gps_millisecs := buf.getD 9 0 }
    shortHeaderFields := fun buf =>
      { message_id := buf.getD 4 0 + 256 * buf.getD 5 0
        message_length := buf.getD 6 0 + 256 * buf.getD 7 0
        gps_week := buf.getD 8 0
        gps_millisecs := buf.getD 9 0 }
    decodeBestPos := fun _ => bestPos0
    decodeBestVel := fun _ => bestVel0
    decodeCorrImuData := fun _ => corrImuData0
    decodeInsCov := fun _ => insCov0
    decodeInsPva := fun _ => insPva0
    decodeInsPvaX := fun _ => insPvaX0
    decodeRawImuX := fun _ => rawImuX0
    decodeRawImu := fun _ => rawImu0
    decodeGpsEph := fun _ => gpsEph0
    decodeBdsEph := fun _ => bdsEph0
    decodeGloEph := fun _ => gloEph0
    decodeHeading := fun _ => headingMsg0
    sizeofBestPos := 72
    sizeofBestVel := 44
    sizeofCorrImuData := 40
    sizeofInsCov := 228
    sizeofInsPva := 88
    sizeofInsPvaX := 126
    sizeofRawImuX := 40
    sizeofRawImu := 40
    sizeofGpsEph := 224
    sizeofBdsEph := 196
    sizeofGloEph := 144
    sizeofHeading := 44
    GetImuParameter := fun t =>
      if t = 1 then { gyro_scale := 1 / 100, accel_scale := 2, sampling_rate_hz := 100 }
      else { gyro_scale := 0, accel_scale := 0, sampling_rate_hz := 0 }
    index9 := fun i => i
    deg_to_rad := 314159 / 18000000
    float_nan := 0
    sqrtQ := fun q => q
    cosQ := fun _ => 1
    sinQ := fun _ => 0
    azimuth_deg_to_yaw_rad := fun a => -a
    gps2unix := fun t => t - 315964800
    now := 0
    input_oem4 := fun r b => (r, if b = 1 then 1 else 0)
    time2gpst := fun t => (0, t)
    satsys := fun sat => (if sat = 1 then 1 else 0, sat)
    gnss_sys_type := fun sys => if sys = 1 then some GnssType.GPS_SYS else none
    gnss_baud_id := fun _ j => if j = 0 then some 1 else none
    NFREQ_NEXOBS := 3
    initial_imu_type := 0
    initial_imu_frame_mapping := 5
    initial_raw := { time := 0, obs := [] } }

/-- Freshly constructed parser state over `testEnv` with no configured IMU
type. -/
def testState : PState := initState testEnv { imu_type := none }

/-- Completed-frame state whose trailing checksum word (1) disagrees with the
computed checksum (0 under `testEnv`). -/
def badCrcState : PState :=
  { testState with
    buffer_ := [SYNC_0, SYNC_1, SYNC_2_SHORT_HEADER, 0, 231, 3, 0, 0, 0, 0,
                0, 0, 1, 0, 0, 0]
    total_length_ := 16 }

/-- Completed-frame state with a validating checksum whose message identifier
(999) is not in the dispatch table. -/
def unknownIdState : PState :=
  { testState with
    buffer_ := [SYNC_0, SYNC_1, SYNC_2_SHORT_HEADER, 0, 231, 3, 0, 0, 0, 0,
                0, 0, 0, 0, 0, 0]
    total_length_ := 16 }

/-- Parser state with initialized calibration and an unsupported frame-mapping
selector (7). -/
def badMappingState : PState :=
  { testState with imu_frame_mapping_ := 7, gyro_scale_ := 1, accel_scale_ := 1 }

/-- Completed checksum-valid RAWIMUX frame (id 1461, declared body length 40)
accumulated on top of `badMappingState`. -/
def rawImuXFrameState : PState :=
  { badMappingState with
    buffer_ := [170, 68, 19, 0, 181, 5, 40, 0, 0, 0, 0, 0, 0, 0, 0, 0]
    total_length_ := 16 }

/-- Parser state with unset calibration and a configured device (type 1) whose
table entry has a 100 Hz sampling rate. -/
def calibInitState : PState := { testState with imu_type_ := 1 }

/-- Parser state with unset calibration and a configured device (type 0) whose
table entry has a zero sampling rate. -/
def calibZeroRateState : PState := { testState with imu_type_ := 0 }

/-- Parser state with calibration already set. -/
def calibSetState : PState :=
  { testState with
    gyro_scale_ := 5
    accel_scale_ := 7
    imu_measurement_hz_ := 100
    imu_measurement_span_ := 1 / 100 }

/-- Satellite whose system code (0 under `testEnv`) is not recognized by the
output taxonomy. -/
def obsDatumUnmapped : ObsDatum :=
  { sat := 5, L := [2, 3], P := [10, 11], D := [0, 0], SNR := [40, 41],
    code := [1, 1] }

/-- Satellite whose system code (1 under `testEnv`) maps to `GPS_SYS`. -/
def obsDatumMapped : ObsDatum :=
  { sat := 1, L := [2, 3], P := [10, 11], D := [0, 0], SNR := [40, 41],
    code := [1, 1] }

/-- Sub-decoder state holding a complete epoch in which the first satellite's
system is unrecognized and the second one's is recognized. -/
def rawEpochUnmappedFirst : RawT :=
  { time := 0, obs := [obsDatumUnmapped, obsDatumMapped] }



/-- Frame-accumulation fields of a state, bundled so that their preservation
is a single rewrite. -/
def accumOf (s : PState) : List Nat × Nat × Nat :=
  (s.buffer_, s.header_length_, s.total_length_)

lemma fst_ite (c : Prop) [Decidable c] (a b : PState × MessageType) :
    (if c then a else b).1 = if c then a.1 else b.1 := by
  split_ifs <;> rfl

lemma snd_ite (c : Prop) [Decidable c] (a b : PState × MessageType) :
    (if c then a else b).2 = if c then a.2 else b.2 := by
  split_ifs <;> rfl

lemma accumOf_ite (c : Prop) [Decidable c] (a b : PState) :
    accumOf (if c then a else b) = if c then accumOf a else accumOf b := by
  split_ifs <;> rfl

lemma handleGnssBestpos_accum (pos : BestPos) (w ms : Nat) (s : PState) :
    accumOf (HandleGnssBestpos pos w ms s).1 = accumOf s := rfl

lemma handleBestPos_accum (pos : BestPos) (w ms : Nat) (s : PState) :
    accumOf (HandleBestPos pos w ms s).1 = accumOf s := by
  unfold HandleBestPos
  dsimp only
  split_ifs <;> rfl

lemma handleBestVel_accum (env : Env) (vel : BestVel) (w ms : Nat) (s : PState) :
    accumOf (HandleBestVel env vel w ms s).1 = accumOf s := by
  unfold HandleBestVel
  dsimp only
  split_ifs <;> rfl

lemma handleCorrImuData_accum (env : Env) (imu : CorrImuData) (s : PState) :
    accumOf (HandleCorrImuData env imu s).1 = accumOf s := by
  unfold HandleCorrImuData
  dsimp only
  split_ifs <;> rfl

lemma handleInsCov_accum (env : Env) (cov : InsCov) (s : PState) :
    accumOf (HandleInsCov env cov s).1 = accumOf s := rfl

lemma handleInsPva_accum (env : Env) (pva : InsPva) (s : PState) :
    accumOf (HandleInsPva env pva s).1 = accumOf s := by
  unfold HandleInsPva
  dsimp only
  split_ifs <;> rfl

lemma handleInsPvax_accum (env : Env) (pvax : InsPvaX) (w ms : Nat) (s : PState) :
    accumOf (HandleInsPvax env pvax w ms s).1 = accumOf s := rfl

lemma handleRawImuX_accum (env : Env) (imu : RawImuX) (s : PState) :
    accumOf (HandleRawImuX env imu s).1 = accumOf s := by
  unfold HandleRawImuX rawImuXBody
  dsimp only
  split_ifs <;> rfl

lemma handleRawImu_accum (env : Env) (imu : RawImu) (s : PState) :
    accumOf (HandleRawImu env imu s).1 = accumOf s := by
  unfold HandleRawImu rawImuBody
  dsimp only
  split_ifs <;> rfl

lemma handleGpsEph_accum (env : Env) (e : GPS_Ephemeris) (s : PState) :
    accumOf (HandleGpsEph env e s).1 = accumOf s := rfl

lemma handleBdsEph_accum (e : BDS_Ephemeris) (s : PState) :
    accumOf (HandleBdsEph e s).1 = accumOf s := rfl

lemma handleGloEph_accum (e : GLO_Ephemeris) (s : PState) :
    accumOf (HandleGloEph e s).1 = accumOf s := rfl

lemma handleHeading_accum (m : HeadingMsg) (w ms : Nat) (s : PState) :
    accumOf (HandleHeading m w ms s).1 = accumOf s := rfl

lemma decodeGnssObservation_accum (env : Env) :
    ∀ (l : List Nat) (s : PState),
      accumOf (DecodeGnssObservation env s l).1 = accumOf s
  | [], _ => rfl
  | b :: rest, s => by
    rw [DecodeGnssObservation]
    split_ifs with h
    · rfl
    · exact decodeGnssObservation_accum env rest _

/-- No branch of the dispatcher, and no handler it invokes, touches the
frame-accumulation fields. -/
lemma prepareMessage_accum (env : Env) (s : PState) :
    accumOf (PrepareMessage env s).1 = accumOf s := by
  simp only [PrepareMessage, fst_ite, accumOf_ite, handleGnssBestpos_accum,
    handleBestPos_accum, handleBestVel_accum, handleCorrImuData_accum,
    handleInsCov_accum, handleInsPva_accum, handleInsPvax_accum,
    handleRawImuX_accum, handleRawImu_accum, handleGpsEph_accum,
    handleBdsEph_accum, handleGloEph_accum, handleHeading_accum,
    decodeGnssObservation_accum, ite_self]


lemma prepareMessage_buffer (env : Env) (s : PState) :
    (PrepareMessage env s).1.buffer_ = s.buffer_ :=
  congrArg Prod.fst (prepareMessage_accum env s)

lemma prepareMessage_header_length (env : Env) (s : PState) :
    (PrepareMessage env s).1.header_length_ = s.header_length_ :=
  congrArg (fun p => p.2.1) (prepareMessage_accum env s)

lemma prepareMessage_total_length (env : Env) (s : PState) :
    (PrepareMessage env s).1.total_length_ = s.total_length_ :=
  congrArg (fun p => p.2.2) (prepareMessage_accum env s)

lemma WFState_le_max (s : PState) (h : WFState s) :
    s.buffer_.length ≤ maxFrameLen := by
  obtain ⟨hd, hh, ht, hz⟩ := h
  by_cases h1 : 0 < s.header_length_
  · obtain ⟨_, h2, _⟩ := hh h1
    rcases hd with hd | hd | hd <;>
      simp only [maxFrameLen, SHORT_HEADER_SIZE, LONG_HEADER_SIZE, CRC_LENGTH] at * <;>
      omega
  · by_cases h2 : 0 < s.total_length_
    · obtain ⟨_, _, h3, h4⟩ := ht h2
      omega
    · have := hz ⟨by omega, by omega⟩
      simp only [maxFrameLen, SHORT_HEADER_SIZE, LONG_HEADER_SIZE, CRC_LENGTH]
      omega

lemma settle_WF (env : Env) (s : PState) (h : WFState s) :
    WFState (settle env s).1 := by
  obtain ⟨hd, hh, ht, hz⟩ := h
  unfold settle
  split_ifs with c1 c2 c3 c4 c5 c6 c7
  · exact ⟨hd, hh, ht, hz⟩
  · exact ⟨hd, hh, ht, hz⟩
  · -- long header completed: total length becomes header + crc + declared body
    obtain ⟨hb1, hb2, -⟩ := hh c2
    have hm : (maskHeader (env.longHeaderFields s.buffer_)).message_length < 65536 :=
      Nat.mod_lt _ (by norm_num)
    simp only [LONG_HEADER_SIZE] at c4
    refine ⟨Or.inl rfl, by simp, ?_, ?_⟩
    · intro _
      refine ⟨rfl, ?_, ?_, ?_⟩ <;>
        simp only [CRC_LENGTH, maxFrameLen, LONG_HEADER_SIZE] <;> omega
    · rintro ⟨-, habs⟩
      simp only [CRC_LENGTH] at habs
      omega
  · -- short header completed
    obtain ⟨hb1, hb2, -⟩ := hh c2
    have hm : (maskHeader (env.shortHeaderFields s.buffer_)).message_length < 65536 :=
      Nat.mod_lt _ (by norm_num)
    simp only [SHORT_HEADER_SIZE] at c5
    refine ⟨Or.inl rfl, by simp, ?_, ?_⟩
    · intro _
      refine ⟨rfl, ?_, ?_, ?_⟩ <;>
        simp only [CRC_LENGTH, maxFrameLen, LONG_HEADER_SIZE, SHORT_HEADER_SIZE] <;> omega
    · rintro ⟨-, habs⟩
      simp only [CRC_LENGTH] at habs
      omega
  · -- impossible header size: the source clears the buffer
    obtain ⟨-, -, hb3⟩ := hh c2
    refine ⟨Or.inl rfl, by simp, ?_, by simp⟩
    intro h0
    omega
  · exact ⟨hd, hh, ht, hz⟩
  · -- complete frame dispatched and cleared
    have hb := prepareMessage_header_length env s
    have h0 : s.header_length_ = 0 := (ht c6).1
    refine ⟨Or.inl (by rw [hb, h0]), ?_, by simp, by simp⟩
    intro hpos
    rw [hb, h0] at hpos
    omega
  · exact ⟨hd, hh, ht, hz⟩

lemma handleByte_WF (s : PState) (b : Nat) (h : WFState s) :
    WFState (handleByte s b) := by
  obtain ⟨hd, hh, ht, hz⟩ := h
  unfold handleByte
  split_ifs with c1 c2 c3 c4 c5 c6 c7 c8 c9 c10 c11 c12 c13 <;>
    refine ⟨?_, ?_, ?_, ?_⟩ <;>
    simp_all [WFState, SHORT_HEADER_SIZE, LONG_HEADER_SIZE, maxFrameLen, CRC_LENGTH] <;>
    omega

lemma getMessage_WF (env : Env) :
    ∀ (input : List Nat) (s : PState), WFState s →
      WFState (GetMessage env s input).1
  | [], _, h => h
  | b :: rest, s, h => by
    rw [GetMessage]
    split_ifs with hs
    · exact getMessage_WF env rest _ (handleByte_WF _ b (settle_WF env s h))
    · exact settle_WF env s h


/-- C10: checksum failure is atomic with respect to all parser outputs — when
`check_crc` fails for a completed frame, `PrepareMessage` returns `NONE`
before reading any header field, and every output record (bestpos, gnss, ins,
imu, ins_stat, ephemeris, heading, observation) and the calibration state
hold exactly the values they held before the frame completed. -/
theorem crc_failure_atomic (env : Env) (s : PState)
    (hbad : check_crc env s = false) :
    PrepareMessage env s = (s, MessageType.NONE) ∧
    (PrepareMessage env s).1.bestpos_ = s.bestpos_ ∧
    (PrepareMessage env s).1.gnss_ = s.gnss_ ∧
    (PrepareMessage env s).1.ins_ = s.ins_ ∧
    (PrepareMessage env s).1.imu_ = s.imu_ ∧
    (PrepareMessage env s).1.ins_stat_ = s.ins_stat_ ∧
    (PrepareMessage env s).1.gnss_ephemeris_ = s.gnss_ephemeris_ ∧
    (PrepareMessage env s).1.heading_ = s.heading_ ∧
    (PrepareMessage env s).1.gnss_observation_ = s.gnss_observation_ ∧
    (PrepareMessage env s).1.gyro_scale_ = s.gyro_scale_ ∧
    (PrepareMessage env s).1.accel_scale_ = s.accel_scale_ ∧
    (PrepareMessage env s).1.imu_measurement_hz_ = s.imu_measurement_hz_ ∧
    (PrepareMessage env s).1.imu_measurement_span_ = s.imu_measurement_span_ := by
  have h : PrepareMessage env s = (s, MessageType.NONE) := by
    unfold PrepareMessage
    rw [if_pos (by simp [hbad])]
  rw [h]
  exact ⟨rfl, rfl, rfl, rfl, rfl, rfl, rfl, rfl, rfl, rfl, rfl, rfl, rfl⟩

theorem crc_failure_atomic_witness :
    check_crc testEnv badCrcState = false ∧
    PrepareMessage testEnv badCrcState = (badCrcState, MessageType.NONE) :=
  ⟨by decide, (crc_failure_atomic testEnv badCrcState (by decide)).1⟩

/-- C1: for a completed candidate frame, the checksum over all buffer bytes
except the trailing 4-byte suffix is compared before any header or body field
is used; on mismatch the frame is discarded — same records, no message, no
handler run — and, the buffer being empty again, accumulation resumes at
sync search. -/
theorem crc_mismatch_discards_frame (env : Env) (s : PState)
    (hlen : 2 < s.buffer_.length)
    (hhl : s.header_length_ = 0)
    (htl : 0 < s.total_length_)
    (hfull : s.total_length_ ≤ s.buffer_.length)
    (hbad : check_crc env s = false) :
    settle env s = ({ s with buffer_ := [], total_length_ := 0 }, MessageType.NONE) := by
  have h : PrepareMessage env s = (s, MessageType.NONE) := by
    unfold PrepareMessage
    rw [if_pos (by simp [hbad])]
  unfold settle
  rw [if_neg (by omega), if_neg (by omega), if_pos htl, if_neg (by omega)]
  rw [h]

theorem crc_mismatch_discards_frame_witness :
    2 < badCrcState.buffer_.length ∧
    badCrcState.header_length_ = 0 ∧
    0 < badCrcState.total_length_ ∧
    badCrcState.total_length_ ≤ badCrcState.buffer_.length ∧
    check_crc testEnv badCrcState = false ∧
    settle testEnv badCrcState =
      ({ badCrcState with buffer_ := [], total_length_ := 0 }, MessageType.NONE) :=
  ⟨by decide, by decide, by decide, by decide, by decide,
    crc_mismatch_discards_frame testEnv badCrcState (by decide) (by decide)
      (by decide) (by decide) (by decide)⟩


/-- C8: a checksum-valid frame whose message identifier is not in the
dispatch table is silently discarded: no handler runs and the state is
untouched, no message is produced, and the parser goes on consuming the
remaining input exactly as if restarted on an empty buffer. -/
theorem unknown_id_silently_discarded (env : Env) (s : PState) (b : Nat)
    (input : List Nat)
    (hlen : 2 < s.buffer_.length)
    (hhl : s.header_length_ = 0)
    (htl : 0 < s.total_length_)
    (hfull : s.total_length_ ≤ s.buffer_.length)
    (hok : check_crc env s = true)
    (hid : (headerOf env s.buffer_).1.message_id ∉ knownMessageIds) :
    PrepareMessage env s = (s, MessageType.NONE) ∧
    settle env s = ({ s with buffer_ := [], total_length_ := 0 }, MessageType.NONE) ∧
    GetMessage env s (b :: input) =
      GetMessage env ({ s with buffer_ := [], total_length_ := 0 }) (b :: input) := by
  simp only [knownMessageIds, List.mem_cons, List.not_mem_nil, or_false,
    not_or] at hid
  obtain ⟨n1, n2, n3, n4, n5, n6, n7, n8, n9, n10, n11, n12, n13, n14, n15,
    n16, n17, n18, n19, n20, n21, n22⟩ := hid
  have hprep : PrepareMessage env s = (s, MessageType.NONE) := by
    unfold PrepareMessage
    rw [if_neg (by simp [hok])]
    dsimp only
    rw [if_neg n1, if_neg (by simp [n2, n3]), if_neg (by simp [n4, n5, n6]),
      if_neg (by simp [n7, n8]), if_neg (by simp [n9, n10]),
      if_neg (by simp [n11, n12]), if_neg (by simp [n13, n14]),
      if_neg (by simp [n15, n16]), if_neg n17, if_neg n18, if_neg n19,
      if_neg n20, if_neg n21, if_neg n22]
  have hset : settle env s =
      ({ s with buffer_ := [], total_length_ := 0 }, MessageType.NONE) := by
    unfold settle
    rw [if_neg (by omega), if_neg (by omega), if_pos htl, if_neg (by omega)]
    rw [hprep]
  refine ⟨hprep, hset, ?_⟩
  rw [GetMessage, GetMessage, hset]
  have hset0 : settle env ({ s with buffer_ := [], total_length_ := 0 }) =
      ({ s with buffer_ := [], total_length_ := 0 }, MessageType.NONE) := by
    unfold settle
    rw [if_pos (by simp)]
  rw [hset0]

theorem unknown_id_silently_discarded_witness :
    check_crc testEnv unknownIdState = true ∧
    (headerOf testEnv unknownIdState.buffer_).1.message_id ∉ knownMessageIds ∧
    PrepareMessage testEnv unknownIdState = (unknownIdState, MessageType.NONE) :=
  ⟨by decide, by decide,
    (unknown_id_silently_discarded testEnv unknownIdState 0 [] (by decide)
      (by decide) (by decide) (by decide) (by decide) (by decide)).1⟩

/-- C9: over any input fed through `GetMessage` from a well-formed state, the
accumulation buffer's length never exceeds the maximum protocol frame size
(long header + 4-byte checksum + largest declarable body): the invariant
holds initially, is preserved by each byte-free and byte-consuming step and
by whole calls, and bounds the buffer; and a completed frame is always
cleared by its dispatch step, whatever the validation outcome. -/
theorem getMessage_buffer_bounded (env : Env) (cfg : Config) (s : PState)
    (b : Nat) (input : List Nat) (h : WFState s) :
    WFState (initState env cfg) ∧
    s.buffer_.length ≤ maxFrameLen ∧
    WFState (settle env s).1 ∧
    WFState (handleByte s b) ∧
    WFState (GetMessage env s input).1 ∧
    (GetMessage env s input).1.buffer_.length ≤ maxFrameLen ∧
    (0 < s.total_length_ → ¬ s.buffer_.length < s.total_length_ →
      (settle env s).1.buffer_ = [] ∧ (settle env s).1.total_length_ = 0) := by
  refine ⟨?_, WFState_le_max s h, settle_WF env s h, handleByte_WF s b h,
    getMessage_WF env input s h,
    WFState_le_max _ (getMessage_WF env input s h), ?_⟩
  · exact ⟨Or.inl rfl, by simp [initState], by simp [initState], by simp [initState]⟩
  · intro h1 h2
    obtain ⟨h0, h3, -, -⟩ := h.2.2.1 h1
    unfold settle
    rw [if_neg (by omega), if_neg (by omega), if_pos h1, if_neg h2]
    exact ⟨rfl, rfl⟩

theorem getMessage_buffer_bounded_witness :
    WFState badCrcState ∧
    0 < badCrcState.total_length_ ∧
    ¬ badCrcState.buffer_.length < badCrcState.total_length_ ∧
    (GetMessage testEnv badCrcState [170, 68]).1.buffer_.length ≤ maxFrameLen ∧
    (settle testEnv badCrcState).1.buffer_ = [] := by
  have hw : WFState badCrcState := by
    unfold WFState maxFrameLen LONG_HEADER_SIZE SHORT_HEADER_SIZE CRC_LENGTH
    decide
  have happ := getMessage_buffer_bounded testEnv { imu_type := none }
    badCrcState 0 [170, 68] hw
  exact ⟨hw, by decide, by decide, happ.2.2.2.2.2.1,
    (happ.2.2.2.2.2.2 (by decide) (by decide)).1⟩


/-- C2: the fused-record handlers gate readiness on the frame timestamp
`week * 604800 + ms / 1000`: a frame whose timestamp differs from the
record's stored measurement time stores the new timestamp and reports
not-ready, a frame whose timestamp equals the stored one reports ready; so
two frames with identical timestamps yield exactly one ready signal, after
the second frame and not after the first. -/
theorem readiness_gating_two_frames (env : Env) (pos : BestPos)
    (vel : BestVel) (w ms : Nat) (s : PState) :
    (HandleBestPos pos w ms s).2 =
      decide (s.gnss_.measurement_time = gpsSeconds w ms) ∧
    (HandleBestPos pos w ms s).1.gnss_.measurement_time = gpsSeconds w ms ∧
    (HandleBestPos pos w ms (HandleBestPos pos w ms s).1).2 = true ∧
    (HandleBestVel env vel w ms s).2 =
      decide (s.gnss_.measurement_time = gpsSeconds w ms) ∧
    (HandleBestVel env vel w ms s).1.gnss_.measurement_time = gpsSeconds w ms ∧
    (HandleBestVel env vel w ms (HandleBestVel env vel w ms s).1).2 = true ∧
    (HandleBestVel env vel w ms (HandleBestPos pos w ms s).1).2 = true ∧
    (s.gnss_.measurement_time ≠ gpsSeconds w ms →
      (HandleBestPos pos w ms s).2 = false ∧
      (HandleBestVel env vel w ms s).2 = false) := by
  by_cases ht : s.gnss_.measurement_time = gpsSeconds w ms <;>
    by_cases hsc : pos.solution_status = SolutionStatus.SOL_COMPUTED <;>
      simp [HandleBestPos, HandleBestVel, ht, hsc, apply_ite PState.gnss_,
        apply_ite Gnss.measurement_time, apply_ite Gnss.velocity_latency,
        apply_ite Prod.fst, apply_ite Prod.snd, ite_self]

theorem readiness_gating_two_frames_witness :
    testState.gnss_.measurement_time ≠ gpsSeconds 2200 100000 ∧
    (HandleBestPos bestPos0 2200 100000 testState).2 = false ∧
    (HandleBestPos bestPos0 2200 100000
      (HandleBestPos bestPos0 2200 100000 testState).1).2 = true := by
  have h : testState.gnss_.measurement_time ≠ gpsSeconds 2200 100000 := by
    norm_num [testState, initState, gpsSeconds, SECONDS_PER_WEEK]
  have happ := readiness_gating_two_frames testEnv bestPos0 bestVel0
    2200 100000 testState
  exact ⟨h, (happ.2.2.2.2.2.2.2 h).1, happ.2.2.1⟩

/-- C3: a BESTPOS-family body with `SOL_COMPUTED`/`SINGLE`, latitude 37.4,
longitude -122.1, height 10 over the geoid and undulation -25, stamped GPS
week 2200 and 100000 ms, puts lon -122.1, lat 37.4, height -15 (msl plus
undulation), quality class SINGLE and measurement time
`2200 * 604800 + 100000 / 1000 = 1330560100` into the fused GNSS record. -/
theorem bestpos_scenario_fields (s : PState) (pos : BestPos)
    (hss : pos.solution_status = SolutionStatus.SOL_COMPUTED)
    (hpt : pos.position_type = SolutionType.SINGLE)
    (hlat : pos.latitude = 187 / 5)
    (hlon : pos.longitude = -1221 / 10)
    (hhm : pos.height_msl = 10)
    (hu : pos.undulation = -25) :
    (HandleBestPos pos 2200 100000 s).1.gnss_.position.lon = -1221 / 10 ∧
    (HandleBestPos pos 2200 100000 s).1.gnss_.position.lat = 187 / 5 ∧
    (HandleBestPos pos 2200 100000 s).1.gnss_.position.height = -15 ∧
    (HandleBestPos pos 2200 100000 s).1.gnss_.type = GnssPosType.SINGLE ∧
    (HandleBestPos pos 2200 100000 s).1.gnss_.measurement_time =
      gpsSeconds 2200 100000 ∧
    gpsSeconds 2200 100000 = 1330560100 := by
  have harith : gpsSeconds 2200 100000 = 1330560100 := by
    norm_num [gpsSeconds, SECONDS_PER_WEEK]
  by_cases ht : s.gnss_.measurement_time = gpsSeconds 2200 100000 <;>
    simp [HandleBestPos, gnssTypeOfSolutionType, hss, hpt, hlat, hlon, hhm, hu,
      ht, harith, apply_ite PState.gnss_, apply_ite Gnss.measurement_time,
      apply_ite Gnss.position, apply_ite Gnss.type, apply_ite Prod.fst,
      apply_ite Prod.snd, ite_self] <;>
    norm_num

theorem bestpos_scenario_fields_witness :
    bestPosScenario.solution_status = SolutionStatus.SOL_COMPUTED ∧
    bestPosScenario.position_type = SolutionType.SINGLE ∧
    bestPosScenario.latitude = 187 / 5 ∧
    bestPosScenario.longitude = -1221 / 10 ∧
    bestPosScenario.height_msl = 10 ∧
    bestPosScenario.undulation = -25 ∧
    (HandleBestPos bestPosScenario 2200 100000 testState).1.gnss_.position.height = -15 ∧
    (HandleBestPos bestPosScenario 2200 100000 testState).1.gnss_.type =
      GnssPosType.SINGLE := by
  have happ := bestpos_scenario_fields testState bestPosScenario rfl rfl rfl
    rfl rfl rfl
  exact ⟨rfl, rfl, rfl, rfl, rfl, rfl, happ.2.2.1, happ.2.2.2.1⟩


lemma rawImuX_preserves_calibration (env : Env) (ix : RawImuX) (s : PState)
    (h : s.gyro_scale_ ≠ 0) :
    (HandleRawImuX env ix s).1.gyro_scale_ = s.gyro_scale_ ∧
    (HandleRawImuX env ix s).1.accel_scale_ = s.accel_scale_ ∧
    (HandleRawImuX env ix s).1.imu_measurement_hz_ = s.imu_measurement_hz_ ∧
    (HandleRawImuX env ix s).1.imu_measurement_span_ = s.imu_measurement_span_ := by
  simp [HandleRawImuX, rawImuXBody, is_zero, h]

/-- C4: calibration initialization is idempotent and persistent — with
calibration unset, a zero table sampling rate drops the frame leaving the
whole state (calibration included) untouched; a nonzero rate initializes the
persistent scales, rate and span from the table; and once the gyro scale is
nonzero no raw-inertial frame (either variant) changes the stored scales or
span again, so the values set by the first frame survive a second one. -/
theorem calibration_idempotent (env : Env) (ix ix2 : RawImuX) (ir : RawImu)
    (s : PState) :
    (s.gyro_scale_ = 0 →
      (env.GetImuParameter s.imu_type_).sampling_rate_hz = 0 →
      HandleRawImuX env ix s = (s, false) ∧ HandleRawImu env ir s = (s, false)) ∧
    (s.gyro_scale_ = 0 →
      (env.GetImuParameter s.imu_type_).sampling_rate_hz ≠ 0 →
      (HandleRawImuX env ix s).1.gyro_scale_ =
        (env.GetImuParameter s.imu_type_).gyro_scale *
          (env.GetImuParameter s.imu_type_).sampling_rate_hz ∧
      (HandleRawImuX env ix s).1.accel_scale_ =
        (env.GetImuParameter s.imu_type_).accel_scale *
          (env.GetImuParameter s.imu_type_).sampling_rate_hz ∧
      (HandleRawImuX env ix s).1.imu_measurement_hz_ =
        (env.GetImuParameter s.imu_type_).sampling_rate_hz ∧
      (HandleRawImuX env ix s).1.imu_measurement_span_ =
        1 / (env.GetImuParameter s.imu_type_).sampling_rate_hz) ∧
    (s.gyro_scale_ ≠ 0 →
      (HandleRawImuX env ix s).1.gyro_scale_ = s.gyro_scale_ ∧
      (HandleRawImuX env ix s).1.accel_scale_ = s.accel_scale_ ∧
      (HandleRawImuX env ix s).1.imu_measurement_hz_ = s.imu_measurement_hz_ ∧
      (HandleRawImuX env ix s).1.imu_measurement_span_ = s.imu_measurement_span_ ∧
      (HandleRawImu env ir s).1.gyro_scale_ = s.gyro_scale_ ∧
      (HandleRawImu env ir s).1.accel_scale_ = s.accel_scale_ ∧
      (HandleRawImu env ir s).1.imu_measurement_span_ = s.imu_measurement_span_) ∧
    (s.gyro_scale_ = 0 →
      (env.GetImuParameter s.imu_type_).gyro_scale *
        (env.GetImuParameter s.imu_type_).sampling_rate_hz ≠ 0 →
      (HandleRawImuX env ix2 (HandleRawImuX env ix s).1).1.gyro_scale_ =
        (HandleRawImuX env ix s).1.gyro_scale_ ∧
      (HandleRawImuX env ix2 (HandleRawImuX env ix s).1).1.accel_scale_ =
        (HandleRawImuX env ix s).1.accel_scale_) := by
  refine ⟨?_, ?_, ?_, ?_⟩
  · intro h1 h2
    constructor <;> simp [HandleRawImuX, HandleRawImu, is_zero, h1, h2]
  · intro h1 h2
    simp [HandleRawImuX, rawImuXBody, is_zero, h1, h2]
  · intro h1
    simp [HandleRawImuX, HandleRawImu, rawImuXBody, rawImuBody, is_zero, h1]
  · intro h1 hprod
    have h2 : (env.GetImuParameter s.imu_type_).sampling_rate_hz ≠ 0 :=
      fun hz => hprod (by rw [hz, mul_zero])
    have hg : (HandleRawImuX env ix s).1.gyro_scale_ =
        (env.GetImuParameter s.imu_type_).gyro_scale *
          (env.GetImuParameter s.imu_type_).sampling_rate_hz := by
      simp [HandleRawImuX, rawImuXBody, is_zero, h1, h2]
    have hnz : (HandleRawImuX env ix s).1.gyro_scale_ ≠ 0 := by
      rw [hg]
      exact hprod
    obtain ⟨e1, e2, -, -⟩ := rawImuX_preserves_calibration env ix2 _ hnz
    exact ⟨e1, e2⟩

theorem calibration_idempotent_witness :
    (calibZeroRateState.gyro_scale_ = 0 ∧
      (testEnv.GetImuParameter calibZeroRateState.imu_type_).sampling_rate_hz = 0 ∧
      HandleRawImuX testEnv rawImuX0 calibZeroRateState = (calibZeroRateState, false)) ∧
    (calibInitState.gyro_scale_ = 0 ∧
      (testEnv.GetImuParameter calibInitState.imu_type_).sampling_rate_hz ≠ 0 ∧
      (HandleRawImuX testEnv rawImuX0 calibInitState).1.gyro_scale_ =
        (testEnv.GetImuParameter calibInitState.imu_type_).gyro_scale *
          (testEnv.GetImuParameter calibInitState.imu_type_).sampling_rate_hz) ∧
    (calibSetState.gyro_scale_ ≠ 0 ∧
      (HandleRawImuX testEnv rawImuX0 calibSetState).1.gyro_scale_ =
        calibSetState.gyro_scale_) :=
  ⟨⟨by decide, by decide,
      ((calibration_idempotent testEnv rawImuX0 rawImuX0 rawImu0
        calibZeroRateState).1 (by decide) (by decide)).1⟩,
   ⟨by decide, by decide,
      ((calibration_idempotent testEnv rawImuX0 rawImuX0 rawImu0
        calibInitState).2.1 (by decide) (by decide)).1⟩,
   ⟨by decide,
      ((calibration_idempotent testEnv rawImuX0 rawImuX0 rawImu0
        calibSetState).2.2.1 (by decide)).1⟩⟩

/-- C5 counterexample: with calibration set and the frame-mapping selector at
7 (neither 5 nor 6), the raw-inertial handlers still report ready — the
source only logs in the default branch and then returns true — so the claim
that such frames are dropped with no emission is false; the dispatcher even
emits an IMU message for a checksum-valid RAWIMUX frame in that state. -/
theorem frame_mapping_drop_cex :
    badMappingState.imu_frame_mapping_ = 7 ∧
    (HandleRawImuX testEnv rawImuX0 badMappingState).2 = true ∧
    (HandleRawImu testEnv rawImu0 badMappingState).2 = true ∧
    (PrepareMessage testEnv rawImuXFrameState).2 = MessageType.IMU :=
  ⟨rfl, rfl, rfl, rfl⟩

/-- C5 amended: with calibration initialized and an unsupported frame-mapping
selector, the handlers do not drop the frame: the acceleration and
angular-velocity fields are left unchanged (the condition is only logged),
but the measurement time is stamped and the handlers report ready, so an IMU
message is still emitted. -/
theorem frame_mapping_unsupported_still_ready (env : Env) (ix : RawImuX)
    (ir : RawImu) (s : PState)
    (h5 : s.imu_frame_mapping_ ≠ 5)
    (h6 : s.imu_frame_mapping_ ≠ 6)
    (hc : s.gyro_scale_ ≠ 0) :
    (HandleRawImuX env ix s).2 = true ∧
    (HandleRawImuX env ix s).1.imu_.linear_acceleration =
      s.imu_.linear_acceleration ∧
    (HandleRawImuX env ix s).1.imu_.angular_velocity = s.imu_.angular_velocity ∧
    (HandleRawImuX env ix s).1.imu_.measurement_time =
      gpsSecondsF ix.gps_week ix.gps_seconds ∧
    (HandleRawImu env ir s).2 = true ∧
    (HandleRawImu env ir s).1.imu_.linear_acceleration =
      s.imu_.linear_acceleration ∧
    (HandleRawImu env ir s).1.imu_.angular_velocity = s.imu_.angular_velocity ∧
    (HandleRawImu env ir s).1.imu_.measurement_time =
      gpsSecondsF ir.gps_week ir.gps_seconds := by
  simp [HandleRawImuX, HandleRawImu, rawImuXBody, rawImuBody, is_zero, hc,
    h5, h6]

theorem frame_mapping_unsupported_still_ready_witness :
    badMappingState.imu_frame_mapping_ ≠ 5 ∧
    badMappingState.imu_frame_mapping_ ≠ 6 ∧
    badMappingState.gyro_scale_ ≠ 0 ∧
    (HandleRawImuX testEnv rawImuX0 badMappingState).2 = true ∧
    (HandleRawImuX testEnv rawImuX0 badMappingState).1.imu_.linear_acceleration =
      badMappingState.imu_.linear_acceleration :=
  ⟨by decide, by decide, by decide,
    (frame_mapping_unsupported_still_ready testEnv rawImuX0 rawImu0
      badMappingState (by decide) (by decide) (by decide)).1,
    (frame_mapping_unsupported_still_ready testEnv rawImuX0 rawImu0
      badMappingState (by decide) (by decide) (by decide)).2.1⟩

/-- C6 counterexample: the attitude/position covariance handler does not
return the ready signal — `HandleInsCov` ends with `return false` — so the
claim that it always emits immediately is false at any concrete frame. -/
theorem inscov_not_ready_cex :
    (HandleInsCov testEnv insCov0 testState).2 = false := rfl

/-- C6 amended: the ephemeris, heading and navigation-status handlers always
report ready; the raw-inertial handlers report ready except in the
unsupported-device calibration drop (unset calibration and zero table rate);
the covariance handler always reports not-ready, merging its fields into the
inertial record for a later emission. -/
theorem handler_readiness_table (env : Env) (cov : InsCov) (pvax : InsPvaX)
    (ge : GPS_Ephemeris) (be : BDS_Ephemeris) (gle : GLO_Ephemeris)
    (hm : HeadingMsg) (ix : RawImuX) (ir : RawImu) (w ms : Nat) (s : PState) :
    (HandleInsCov env cov s).2 = false ∧
    (HandleInsPvax env pvax w ms s).2 = true ∧
    (HandleGpsEph env ge s).2 = true ∧
    (HandleBdsEph be s).2 = true ∧
    (HandleGloEph gle s).2 = true ∧
    (HandleHeading hm w ms s).2 = true ∧
    (HandleRawImuX env ix s).2 =
      (if s.gyro_scale_ = 0 ∧
          (env.GetImuParameter s.imu_type_).sampling_rate_hz = 0
        then false else true) ∧
    (HandleRawImu env ir s).2 =
      (if s.gyro_scale_ = 0 ∧
          (env.GetImuParameter s.imu_type_).sampling_rate_hz = 0
        then false else true) := by
  refine ⟨rfl, rfl, rfl, rfl, rfl, rfl, ?_, ?_⟩ <;>
    by_cases h1 : s.gyro_scale_ = 0 <;>
      by_cases h2 : (env.GetImuParameter s.imu_type_).sampling_rate_hz = 0 <;>
        simp [HandleRawImuX, HandleRawImu, rawImuXBody, rawImuBody, is_zero,
          h1, h2]


lemma bandLoop_count (env : Env) (d : ObsDatum) (i : Nat) (gt : GnssType) :
    ∀ (fuel j : Nat),
      (bandLoop env d i gt fuel j).2 = j + (bandLoop env d i gt fuel j).1.length
  | 0, j => by simp [bandLoop]
  | fuel + 1, j => by
    rw [bandLoop]
    split_ifs with h
    · simp
    · cases hb : env.gnss_baud_id gt j with
      | none => simp
      | some bid =>
        have ih := bandLoop_count env d i gt fuel (j + 1)
        simp only [List.length_cons]
        omega

lemma buildSats_band_num (env : Env) :
    ∀ (l : List ObsDatum) (i : Nat),
      ∀ so ∈ buildSats env l i, so.band_obs_num = so.band_obs.length
  | [], _ => by simp [buildSats]
  | d :: rest, i => by
    rw [buildSats]
    cases hg : env.gnss_sys_type (env.satsys d.sat).1 with
    | none => simp
    | some gt =>
      intro so hso
      rcases List.mem_cons.mp hso with h | h
      · subst h
        simpa using bandLoop_count env d i gt env.NFREQ_NEXOBS 0
      · exact buildSats_band_num env rest (i + 1) so h

lemma buildSats_stops (env : Env) :
    ∀ (pre : List ObsDatum) (d : ObsDatum) (post : List ObsDatum) (i : Nat),
      (∀ x ∈ pre, (env.gnss_sys_type (env.satsys x.sat).1).isSome) →
      env.gnss_sys_type (env.satsys d.sat).1 = none →
      (buildSats env (pre ++ d :: post) i).length = pre.length
  | [], d, post, i, _, hd => by
    rw [List.nil_append, buildSats, hd]
    rfl
  | x :: pre, d, post, i, hpre, hd => by
    rw [List.cons_append, buildSats]
    cases hg : env.gnss_sys_type (env.satsys x.sat).1 with
    | none =>
      have hx := hpre x (List.mem_cons_self x pre)
      rw [hg] at hx
      simp at hx
    | some gt =>
      have ih := buildSats_stops env pre d post (i + 1)
        (fun y hy => hpre y (List.mem_cons_of_mem x hy)) hd
      simp [ih]

/-- C7 counterexample: in an epoch whose first satellite has an unrecognized
system and whose second satellite has a recognized one, the source's `break`
ends the whole satellite loop: no satellite at all is decoded, although the
second one is recognized by the taxonomy — refuting the claim that every
other satellite is still decoded. -/
theorem unmapped_satellite_not_only_skipped_cex :
    testEnv.gnss_sys_type (testEnv.satsys obsDatumUnmapped.sat).1 = none ∧
    testEnv.gnss_sys_type (testEnv.satsys obsDatumMapped.sat).1 =
      some GnssType.GPS_SYS ∧
    rawEpochUnmappedFirst.obs = [obsDatumUnmapped, obsDatumMapped] ∧
    (buildObservation testEnv rawEpochUnmappedFirst).sat_obs = [] :=
  ⟨rfl, rfl, rfl, rfl⟩

/-- C7 amended: when decoding a complete observation epoch, a satellite whose
system is unrecognized by the output taxonomy terminates the satellite loop —
the satellites decoded are exactly the ones before it, and later satellites
are not decoded; within each decoded satellite the band list is truncated at
the first band unrecognized for its system (or first zero carrier phase), and
`band_obs_num` equals the number of bands successfully mapped; `sat_obs_num`
still reports the sub-decoder's full satellite count. -/
theorem observation_epoch_truncation (env : Env) (raw : RawT)
    (pre : List ObsDatum) (d : ObsDatum) (post : List ObsDatum)
    (hsplit : raw.obs = pre ++ d :: post)
    (hpre : ∀ x ∈ pre, (env.gnss_sys_type (env.satsys x.sat).1).isSome)
    (hd : env.gnss_sys_type (env.satsys d.sat).1 = none) :
    (buildObservation env raw).sat_obs.length = pre.length ∧
    (∀ so ∈ (buildObservation env raw).sat_obs,
      so.band_obs_num = so.band_obs.length) ∧
    (buildObservation env raw).sat_obs_num = raw.obs.length := by
  refine ⟨?_, ?_, rfl⟩
  · show (buildSats env raw.obs 0).length = pre.length
    rw [hsplit]
    exact buildSats_stops env pre d post 0 hpre hd
  · intro so hso
    exact buildSats_band_num env raw.obs 0 so hso

theorem observation_epoch_truncation_witness :
    rawEpochUnmappedFirst.obs = [] ++ obsDatumUnmapped :: [obsDatumMapped] ∧
    testEnv.gnss_sys_type (testEnv.satsys obsDatumUnmapped.sat).1 = none ∧
    (buildObservation testEnv rawEpochUnmappedFirst).sat_obs.length = 0 :=
  ⟨rfl, rfl,
    (observation_epoch_truncation testEnv rawEpochUnmappedFirst []
      obsDatumUnmapped [obsDatumMapped] rfl (by simp) rfl).1⟩

end NewtonM2
